import Mathlib

/-!
# Verification of the edu-guardian Emotion Intelligence Engine

Shallow embedding of `backend/app/emotion_analysis/analyzer.py`
(`AdvancedEmotionAnalyzer` and `EmotionProfile`),
`backend/app/services/historical_pattern.py`
(`HistoricalPatternService.calculate_pattern_similarity`) and
`backend/app/services/trajectory_predictor.py`
(`EmotionTrajectoryPredictor`).

Modelling conventions:
* Python floats are modelled as exact rationals (`ℚ`); all the arithmetic in
  the source is elementary (+, -, *, /, min, max, abs), so the rational
  semantics is the exact-arithmetic idealisation of the float code.
* Python strings are Lean `String`s; `w in text` is substring containment,
  implemented by `containsChars`.  `text.lower()` is `lcChars`.
* Every regular expression in the source denotes a finite alternation of
  literal words (possibly with an optional trailing group, which never
  affects whether `re.search` succeeds), except the `A.*B` patterns, which
  are matched by `reSeq` (an occurrence of an `A`-literal followed, with no
  intervening newline, by an occurrence of a `B`-literal).  Patterns are kept
  with their original capitalisation and matched case-sensitively against the
  lowercased text, exactly as `re.search(pattern, text.lower())` does.
* Python dict iteration order is insertion order and is preserved in the
  list encodings below.
-/

/-! ## String utilities -/

/-- `text.lower()`: the list of lowercased characters of a string. -/
def lcChars (t : String) : List Char := t.data.map Char.toLower

/-- Boolean prefix test on character lists. -/
def isPrefixChars : List Char → List Char → Bool
  | [], _ => true
  | _ :: _, [] => false
  | a :: as, b :: bs => a == b && isPrefixChars as bs

/-- Boolean substring test: does `pat` occur contiguously inside `t`?
Models Python's `pat in t`. -/
def containsChars (pat : List Char) : List Char → Bool
  | [] => isPrefixChars pat []
  | b :: bs => isPrefixChars pat (b :: bs) || containsChars pat bs

/-- `w.lower() in text.lower()` (both sides lowercased). -/
def wordIn (w t : String) : Bool := containsChars (lcChars w) (lcChars t)

/-- `p in text.lower()` with `p` taken verbatim (also used for
`re.search` of a literal alternative against `text.lower()`). -/
def inLower (p t : String) : Bool := containsChars p.data (lcChars t)

/-- `re.search((a1|a2|...), text.lower())` for a finite alternation of
literals: some alternative occurs in the lowercased text. -/
def reSearch (alts : List String) (t : String) : Bool := alts.any (fun a => inLower a t)

/-- Number of words of `ws` occurring in the text, both lowercased:
`sum(1 for w in ws if w.lower() in text.lower())`. -/
def countHits (ws : List String) (t : String) : Nat :=
  (ws.filter (fun w => wordIn w t)).length

/-- Number of phrases occurring verbatim in the lowercased text:
`sum(1 for p in ps if p in text.lower())`. -/
def countIn (ps : List String) (t : String) : Nat :=
  (ps.filter (fun p => inLower p t)).length

/-- Helper for `reSeq`: after the `A`-part matched, search for a `B`-literal
further right; the gap is matched by `.*`, which cannot cross a newline. -/
def seqTail (bs : List String) : List Char → Bool
  | [] => bs.any (fun b => isPrefixChars b.data [])
  | c :: cs => bs.any (fun b => isPrefixChars b.data (c :: cs)) || (c != '\n' && seqTail bs cs)

/-- Main scan for `reSeq`. -/
def seqScan (as bs : List String) : List Char → Bool
  | [] => false
  | c :: cs =>
    as.any (fun a => isPrefixChars a.data (c :: cs) && seqTail bs (List.drop a.length (c :: cs)))
      || seqScan as bs cs

/-- `re.search((a1|...).*(b1|...), text.lower())`: an `A`-literal occurrence
followed, with no intervening newline, by a `B`-literal occurrence. -/
def reSeq (as bs : List String) (t : String) : Bool := seqScan as bs (lcChars t)

/-- `text.count('!')`. -/
def countExclam (t : String) : Nat := (t.data.filter (fun c => c = '!')).length

/-- `sum(1 for c in text if c.isupper())`. -/
def upperCount (t : String) : Nat := (t.data.filter Char.isUpper).length

/-! ## `EmotionProfile` (analyzer.py, lines 12-51) -/

/-- Comprehensive emotion profile based on text analysis. -/
structure EmotionProfile where
  frustration_level : ℚ
  engagement_level : ℚ
  confidence_level : ℚ
  satisfaction_level : ℚ
  frustration_type : String
  frustration_intensity : String
  frustration_trend : String
  urgency_level : String
  urgency_signals : List String
  response_urgency : String
  emotional_temperature : ℚ
  emotional_volatility : ℚ
  emotional_trajectory : String
  hidden_dissatisfaction_flag : Bool
  hidden_dissatisfaction_confidence : ℚ
  hidden_signals : List String
  politeness_mask_level : ℚ
  dropout_risk_emotions : List String
  positive_recovery_indicators : List String
  emotional_triggers : List String
  emotion_coherence : ℚ
  sentiment_authenticity : ℚ
  emotional_complexity : String
deriving DecidableEq, Repr

/-! ## Lexicon tables (analyzer.py `__init__`, lines 58-108) -/

def frustration_words_technical : List String :=
  ["website", "platform", "error", "bug", "login", "system", "lms", "interface", "broken", "glitch"]

def frustration_words_content : List String :=
  ["material", "content", "lecture", "understand", "concept", "difficult", "confusing", "unclear"]

def frustration_words_support : List String :=
  ["help", "support", "response", "answer", "question", "ignored", "waiting", "unresponsive"]

def frustration_words_pace : List String :=
  ["fast", "slow", "pace", "speed", "keep up", "behind", "rushed", "dragging"]

def urgency_phrases_immediate : List String :=
  ["immediately", "urgent", "asap", "right now", "can't wait", "emergency", "critical", "desperate"]

def urgency_phrases_critical : List String :=
  ["very urgent", "need help now", "can't continue", "blocking me", "impossible", "giving up"]

def urgency_phrases_high : List String :=
  ["soon", "quickly", "need help", "struggling", "important", "priority", "stuck"]

def urgency_phrases_medium : List String :=
  ["when possible", "would like", "appreciate", "should be addressed", "needs attention"]

def urgency_phrases_low : List String :=
  ["eventually", "minor", "small issue", "not urgent", "whenever", "no rush"]

/-- The ten `hidden_dissatisfaction_patterns`, each expanded into its finite
set of literal alternatives, paired with the signal name that
`_analyze_hidden_dissatisfaction` derives from the pattern text via
`pattern.split('|')[0].replace('(','').replace(')','').replace('r"','')`.
An optional trailing group (`( I guess| I suppose)?`, `(anymore)?`) never
affects whether `re.search` succeeds and is dropped from the alternatives. -/
def hidden_dissatisfaction_patterns : List (String × List String) :=
  [("it's", ["it's fine", "it's okay", "it's alright", "its fine", "its okay", "its alright"]),
   ("not too", ["not too bad", "not that bad"]),
   ("could be better", ["could be better", "could be worse"]),
   ("I suppose",
     ["I suppose it's okay", "I suppose it's fine", "I suppose it's alright",
      "I suppose it is okay", "I suppose it is fine", "I suppose it is alright",
      "I guess it's okay", "I guess it's fine", "I guess it's alright",
      "I guess it is okay", "I guess it is fine", "I guess it is alright"]),
   ("works", ["works well enough", "works adequately", "functions well enough", "functions adequately"]),
   ("somewhat",
     ["somewhat helpful", "somewhat useful", "kind of helpful", "kind of useful",
      "sort of helpful", "sort of useful"]),
   ("better than",
     ["better than expected", "better than anticipated",
      "not as bad as expected", "not as bad as anticipated"]),
   ("can't complain",
     ["can't complain too much", "can't complain much",
      "no complaints too much", "no complaints much"]),
   ("doing", ["doing my best", "doing their best", "trying my best", "trying their best"]),
   ("probably", ["probably just me", "maybe just me"])]

def engagement_indicators_high : List String :=
  ["excited", "interested", "engaged", "fascinating", "love", "enjoy", "captivating"]

def engagement_indicators_medium : List String :=
  ["good", "okay", "fine", "decent", "reasonable", "satisfactory"]

def engagement_indicators_low : List String :=
  ["boring", "dull", "uninteresting", "tedious", "monotonous", "disengaged"]

def confidence_indicators_high : List String :=
  ["confident", "sure", "certain", "understand", "grasp", "mastered", "clear"]

def confidence_indicators_medium : List String :=
  ["somewhat understand", "getting it", "making progress", "improving"]

def confidence_indicators_low : List String :=
  ["confused", "lost", "uncertain", "unclear", "don't understand", "struggling"]

def dropout_risk_emotion_words : List String :=
  ["helplessness", "overwhelm", "isolation", "despair", "frustration",
   "anxiety", "hopelessness", "defeat", "inadequacy", "disconnection"]

def positive_recovery_indicator_words : List String :=
  ["hope", "determination", "gratitude", "optimism", "relief",
   "confidence", "satisfaction", "enthusiasm", "motivation", "connection"]

/-! ## Analyzer sub-computations (analyzer.py, lines 199-786) -/

/-- General frustration words appended in `_detect_frustration_level`. -/
def general_frustration : List String :=
  ["frustrating", "difficult", "confused", "struggle", "hard", "annoying",
   "terrible", "awful", "horrible", "useless", "waste", "disappointed"]

/-- All frustration words: the four category lists (dict insertion order)
plus the general list. -/
def all_frustration_words : List String :=
  frustration_words_technical ++ frustration_words_content ++
    frustration_words_support ++ frustration_words_pace ++ general_frustration

def strong_indicators : List String :=
  ["extremely", "very", "incredibly", "terribly", "absolutely"]

/-- The three `explicit_patterns` of `_detect_frustration_level`, expanded.
The first alternative of the first pattern requires a capital `I`, which can
never occur in `text.lower()`; the literals are kept verbatim anyway. -/
def explicit_frustration_patterns : List String :=
  (["I'm ", "I am ", "feeling "].flatMap fun p =>
    (["", "very ", "really ", "extremely "].flatMap fun m =>
      (["frustrated", "annoyed", "upset"].map fun w => p ++ m ++ w))) ++
  (["", "very ", "really ", "extremely "].flatMap fun m =>
    (["frustrating", "annoying", "infuriating"].map fun w => "this is " ++ m ++ w)) ++
  (["can't ", "cannot "].flatMap fun p =>
    (["stand ", "handle ", "deal with "].flatMap fun v =>
      (["this ", "it "].map fun o => p ++ v ++ o)))

/-- `_detect_frustration_level` (lines 199-231). -/
def detect_frustration_level (text : String) : ℚ :=
  let base_count : ℚ := (countHits all_frustration_words text : ℚ)
  let intensity_multiplier : ℚ := 1 + 0.5 * (countHits strong_indicators text : ℚ)
  let frustration_score := min (base_count * 0.15 * intensity_multiplier) 1
  if reSearch explicit_frustration_patterns text then max frustration_score 0.7
  else frustration_score

/-- `(I (really |absolutely )?(love|enjoy|like))` expanded (dead under
`text.lower()`, kept verbatim). -/
def explicit_love_patterns : List String :=
  ["", "really ", "absolutely "].flatMap fun m =>
    (["love", "enjoy", "like"].map fun w => "I " ++ m ++ w)

def explicit_hate_patterns : List String :=
  ["", "really ", "absolutely "].flatMap fun m =>
    (["hate", "dislike", "can't stand"].map fun w => "I " ++ m ++ w)

/-- `_detect_engagement_level` (lines 233-258). -/
def detect_engagement_level (text : String) : ℚ :=
  let engagement_score : ℚ := 0.5
  let high_count : ℚ := (countHits engagement_indicators_high text : ℚ)
  let medium_count : ℚ := (countHits engagement_indicators_medium text : ℚ)
  let low_count : ℚ := (countHits engagement_indicators_low text : ℚ)
  let total_indicators := high_count + medium_count + low_count
  let engagement_score :=
    if total_indicators > 0 then
      (high_count * 0.9 + medium_count * 0.5 + low_count * 0.1) / total_indicators
    else engagement_score
  let engagement_score :=
    if reSearch explicit_love_patterns text then max engagement_score 0.8 else engagement_score
  if reSearch explicit_hate_patterns text then min engagement_score 0.2 else engagement_score

def explicit_confident_patterns : List String :=
  ["I'm ", "I am "].flatMap fun p =>
    (["", "very ", "really ", "extremely "].flatMap fun m =>
      (["confident", "sure", "certain"].map fun w => p ++ m ++ w))

def explicit_confused_patterns : List String :=
  ["I'm ", "I am "].flatMap fun p =>
    (["", "very ", "really ", "extremely "].flatMap fun m =>
      (["confused", "lost", "unsure"].map fun w => p ++ m ++ w))

/-- `_detect_confidence_level` (lines 260-287). -/
def detect_confidence_level (text : String) : ℚ :=
  let confidence_score : ℚ := 0.5
  let high_count : ℚ := (countHits confidence_indicators_high text : ℚ)
  let medium_count : ℚ := (countHits confidence_indicators_medium text : ℚ)
  let low_count : ℚ := (countHits confidence_indicators_low text : ℚ)
  let total_indicators := high_count + medium_count + low_count
  let confidence_score :=
    if total_indicators > 0 then
      (high_count * 0.9 + medium_count * 0.5 + low_count * 0.1) / total_indicators
    else confidence_score
  let confidence_score :=
    if reSearch explicit_confident_patterns text then max confidence_score 0.8 else confidence_score
  if reSearch explicit_confused_patterns text then min confidence_score 0.2 else confidence_score

def positive_indicators : List String :=
  ["satisfied", "happy", "pleased", "great", "excellent", "good", "helpful"]

def negative_indicators : List String :=
  ["unsatisfied", "unhappy", "disappointed", "poor", "terrible", "bad", "unhelpful"]

/-- `_calculate_satisfaction_level` (lines 289-316).  `aspect_scores` is an
optional association list (Python dict); `if aspect_scores:` is false for
`None` and for an empty dict.  NOTE: the source applies no range check to the
values: every value, in range or not, enters the mean. -/
def calculate_satisfaction_level (text : String)
    (aspect_scores : Option (List (String × ℤ))) : ℚ :=
  let pos_count : ℚ := (countHits positive_indicators text : ℚ)
  let neg_count : ℚ := (countHits negative_indicators text : ℚ)
  let total_indicators := pos_count + neg_count
  let text_satisfaction : ℚ := if total_indicators > 0 then pos_count / total_indicators else 0.5
  match aspect_scores with
  | none => text_satisfaction
  | some [] => text_satisfaction
  | some scores =>
    let avg_aspect_score : ℚ := (((scores.map (fun q => q.2)).sum : ℤ) : ℚ) / (scores.length : ℚ)
    let aspect_satisfaction := (avg_aspect_score - 1) / 4
    text_satisfaction * 0.6 + aspect_satisfaction * 0.4

/-- First maximal entry of a nonempty association list (Python
`max(matches, key=matches.get)` keeps the first maximum in insertion
order). -/
def firstMax (hd : String × Nat) (tl : List (String × Nat)) : String × Nat :=
  tl.foldl (fun best p => if p.2 > best.2 then p else best) hd

/-- `_determine_frustration_type` (lines 318-334). -/
def determine_frustration_type (text : String) : String :=
  let mt := countHits frustration_words_technical text
  let mc := countHits frustration_words_content text
  let ms := countHits frustration_words_support text
  let mp := countHits frustration_words_pace text
  let total := mt + mc + ms + mp
  if total = 0 then "mixed"
  else
    let mx := firstMax ("technical", mt) [("content", mc), ("support", ms), ("pace", mp)]
    if mx.2 > 0 ∧ (total : ℚ) > (mx.2 : ℚ) * 1.5 then "mixed"
    else if mx.2 > 0 then mx.1 else "mixed"

/-- `_determine_frustration_intensity` (lines 336-345). -/
def determine_frustration_intensity (frustration_level : ℚ) : String :=
  if frustration_level < 0.3 then "mild"
  else if frustration_level < 0.6 then "moderate"
  else if frustration_level < 0.85 then "severe"
  else "critical"

/-- One entry of the analyzer's `historical_data` parameter: a dict with
the keys read via `entry.get(key, default)` by the trend / volatility /
trajectory computations (modelled as present fields). -/
structure HistEntry where
  timestamp : ℚ
  frustration_level : ℚ
  satisfaction_level : ℚ
  emotional_temperature : ℚ
deriving DecidableEq, Repr

/-- `sorted(historical_data, key=lambda x: x.get('timestamp', 0), reverse=True)`:
stable sort, descending by timestamp. -/
def sortedByTimestampDesc (l : List HistEntry) : List HistEntry :=
  List.insertionSort (fun a b => b.timestamp ≤ a.timestamp) l

/-- `_determine_frustration_trend` (lines 347-371). -/
def determine_frustration_trend (historical_data : Option (List HistEntry)) : String :=
  match historical_data with
  | none => "stable"
  | some l =>
    if l.length < 2 then "stable"
    else
      let recent_entries := (sortedByTimestampDesc l).take 3
      let frustration_levels := recent_entries.map (·.frustration_level)
      if 2 ≤ frustration_levels.length then
        let latest := frustration_levels.headD 0
        let rest := frustration_levels.tail
        let previous := rest.sum / (rest.length : ℚ)
        let diff := latest - previous
        if diff > 0.15 then "increasing"
        else if diff < -0.15 then "decreasing"
        else if rest.any (fun lv => |latest - lv| > 0.25) then "spiking"
        else "stable"
      else "stable"

/-- `_detect_urgency` (lines 373-380): first phrase set that matches, in
dict insertion order immediate → critical → high → medium → low. -/
def detect_urgency (text : String) : String :=
  if reSearch urgency_phrases_immediate text then "immediate"
  else if reSearch urgency_phrases_critical text then "critical"
  else if reSearch urgency_phrases_high text then "high"
  else if reSearch urgency_phrases_medium text then "medium"
  else if reSearch urgency_phrases_low text then "low"
  else "low"

def considering_dropping_patterns : List String :=
  ["thinking ", "considering "].flatMap fun p =>
    (["", "of "].flatMap fun o =>
      (["dropping", "quitting", "leaving"].map fun w => p ++ o ++ w))

def missed_deadlines_patterns : List String :=
  ["missed ", "missing ", "late ", "behind on "].flatMap fun p =>
    (["deadline", "assignment", "submission", "work"].map fun w => p ++ w)

def help_requests_patterns : List String :=
  ["need help", "asking for help", "requesting help"]

def progress_blocked_patterns : List String :=
  ["can't ", "cannot ", "unable to "].flatMap fun p =>
    (["continue", "proceed", "move forward", "progress"].map fun w => p ++ w)

def timeline_pressure_patterns : List String :=
  ["deadline ", "due date "].flatMap fun p =>
    (["approaching", "coming up", "soon"].map fun w => p ++ w)

def repeated_attempts_patterns : List String :=
  ["tried ", "attempted "].flatMap fun p =>
    (["multiple times", "several times", "many times"].map fun w => p ++ w)

/-- `_detect_urgency_signals` (lines 382-407). -/
def detect_urgency_signals (text : String) : List String :=
  (if reSearch considering_dropping_patterns text then ["considering_dropping"] else []) ++
  (if reSearch missed_deadlines_patterns text then ["missed_deadlines"] else []) ++
  (if reSearch help_requests_patterns text then ["help_requests"] else []) ++
  (if reSearch progress_blocked_patterns text then ["progress_blocked"] else []) ++
  (if reSearch timeline_pressure_patterns text then ["timeline_pressure"] else []) ++
  (if reSearch repeated_attempts_patterns text then ["repeated_attempts"] else [])

/-- `_determine_response_urgency` (lines 409-433). -/
def determine_response_urgency (urgency_level : String) (frustration_level : ℚ) : String :=
  let response_urgency :=
    if urgency_level = "immediate" then "within_hour"
    else if urgency_level = "critical" then "within_hour"
    else if urgency_level = "high" then "same_day"
    else if urgency_level = "medium" then "within_week"
    else if urgency_level = "low" then "routine"
    else "routine"
  if frustration_level > 0.8 ∧ response_urgency ≠ "within_hour" then
    if response_urgency = "same_day" then "within_hour"
    else if response_urgency = "within_week" then "same_day"
    else if response_urgency = "routine" then "within_week"
    else response_urgency
  else response_urgency

def hot_words : List String :=
  ["angry", "furious", "excited", "thrilled", "frustrated", "enraged",
   "anxious", "stressed", "panicked", "desperate", "urgent", "passionate"]

def cold_words : List String :=
  ["calm", "detached", "indifferent", "bored", "tired", "exhausted",
   "apathetic", "disinterested", "resigned", "defeated", "numb"]

def intensifiers : List String :=
  ["very", "extremely", "incredibly", "absolutely", "completely", "totally"]

/-- `_calculate_emotional_temperature` (lines 435-473). -/
def calculate_emotional_temperature (text : String) : ℚ :=
  let hot_count : ℚ := (countHits hot_words text : ℚ)
  let cold_count : ℚ := (countHits cold_words text : ℚ)
  let intensifier_count : ℚ := (countHits intensifiers text : ℚ)
  let total_emotion_words := hot_count + cold_count
  let base_temp : ℚ := if total_emotion_words = 0 then 0.5 else hot_count / total_emotion_words
  let intensity_factor := 1 + 0.1 * intensifier_count
  let temperature := min (max (base_temp * intensity_factor) 0) 1
  let exclamation_count : ℚ := (countExclam text : ℚ)
  let caps_ratio : ℚ := (upperCount text : ℚ) / (max text.length 1 : ℚ)
  let temperature := temperature + min (exclamation_count * 0.05) 0.25
  let temperature := temperature + min (caps_ratio * 0.5) 0.25
  min temperature 1

/-- `_calculate_emotional_volatility` (lines 475-502). -/
def calculate_emotional_volatility (historical_data : Option (List HistEntry)) : ℚ :=
  match historical_data with
  | none => 0.3
  | some l =>
    if l.length < 2 then 0.3
    else
      let recent_entries := (sortedByTimestampDesc l).take 5
      let changes : List ℚ :=
        ((recent_entries.zip recent_entries.tail).map (fun p =>
          [|p.1.frustration_level - p.2.frustration_level|,
           |p.1.satisfaction_level - p.2.satisfaction_level|,
           |p.1.emotional_temperature - p.2.emotional_temperature|])).flatten
      if changes.isEmpty then 0.3
      else min ((changes.sum / (changes.length : ℚ)) * 2.5) 1

/-- `_determine_emotional_trajectory` (lines 504-533). -/
def determine_emotional_trajectory (historical_data : Option (List HistEntry)) : String :=
  match historical_data with
  | none => "neutral"
  | some l =>
    if l.length < 2 then "neutral"
    else
      let recent_entries := (sortedByTimestampDesc l).take 3
      let valences := recent_entries.map (fun e => e.satisfaction_level - e.frustration_level)
      if 2 ≤ valences.length then
        let latest := valences.headD 0
        let rest := valences.tail
        let previous_avg := rest.sum / (rest.length : ℚ)
        let diff := latest - previous_avg
        if diff > 0.15 then "improving"
        else if diff < -0.15 then "declining"
        else if rest.any (fun v => |latest - v| > 0.25) then "fluctuating"
        else "neutral"
      else "neutral"

def praise_but_patterns : List String := ["good but", "great but", "nice but"]

def faint_praise_patterns : List String :=
  ["somewhat ", "kind of ", "sort of "].flatMap fun p =>
    (["good", "helpful", "useful"].map fun w => p ++ w)

def diplomatic_language_patterns : List String :=
  ["I appreciate ", "thank you for "].flatMap fun p =>
    (["the effort", "trying", "attempting"].map fun w => p ++ w)

/-- `_analyze_hidden_dissatisfaction` (lines 535-581); returns
`(flag, confidence, signals)`. -/
def analyze_hidden_dissatisfaction (text : String) (satisfaction_level : ℚ) :
    Bool × ℚ × List String :=
  let hidden_signals :=
    (hidden_dissatisfaction_patterns.filter (fun p => reSearch p.2 text)).map (·.1)
  let hidden_signals :=
    if reSearch praise_but_patterns text then hidden_signals ++ ["praise_with_reservations"]
    else hidden_signals
  let hidden_signals :=
    if reSeq ["like", "enjoy"] ["however", "though", "but"] text then
      hidden_signals ++ ["praise_with_reservations"]
    else hidden_signals
  let hidden_signals :=
    if reSearch faint_praise_patterns text then hidden_signals ++ ["faint_praise"]
    else hidden_signals
  let hidden_signals :=
    if reSearch diplomatic_language_patterns text then hidden_signals ++ ["diplomatic_language"]
    else hidden_signals
  let hidden_dissatisfaction := hidden_signals.length > 0
  let base_confidence : ℚ := min ((hidden_signals.length : ℚ) * 0.25) 0.75
  let confidence_adjustment : ℚ :=
    if satisfaction_level > 0.7 ∧ hidden_dissatisfaction then -0.3
    else if satisfaction_level < 0.4 ∧ hidden_dissatisfaction then 0.2
    else 0
  (hidden_dissatisfaction, max (min (base_confidence + confidence_adjustment) 1) 0, hidden_signals)

def polite_phrases : List String :=
  ["thank you", "thanks for", "appreciate", "grateful",
   "please", "if possible", "if you could", "would be nice",
   "understand that", "I know that", "I realize"]

def grateful_patterns : List String :=
  ["very ", "really ", "truly ", "so "].flatMap fun p =>
    (["grateful", "thankful", "appreciative"].map fun w => p ++ w)

def apology_patterns : List String :=
  ["sorry to ", "apologize for "].flatMap fun p =>
    (["bother", "trouble", "disturb"].map fun w => p ++ w)

/-- `_calculate_politeness_mask` (lines 583-608). -/
def calculate_politeness_mask (text : String) (hidden_dissatisfaction : Bool) : ℚ :=
  if !hidden_dissatisfaction then 0
  else
    let polite_count : ℚ := (countIn polite_phrases text : ℚ)
    let mask_level := min (polite_count * 0.2) 0.8
    let mask_level := if reSearch grateful_patterns text then mask_level + 0.1 else mask_level
    let mask_level := if reSearch apology_patterns text then mask_level + 0.15 else mask_level
    min mask_level 1

/-- The phrase table of `_detect_dropout_risk_emotions`. -/
def dropout_emotion_phrases : List (String × List String) :=
  [("helplessness", ["can't do this", "beyond me", "impossible for me", "no way I can"]),
   ("overwhelm", ["too much", "overwhelming", "drowning in", "can't keep up", "too difficult"]),
   ("isolation", ["all alone", "no one helps", "no support", "by myself", "no one responds"]),
   ("despair", ["giving up", "no point", "useless to try", "hopeless", "waste of time"]),
   ("anxiety", ["anxious", "worried", "stressed", "panic", "fear", "dread"])]

/-- `_detect_dropout_risk_emotions` (lines 610-633). -/
def detect_dropout_risk_emotions (text : String) : List String :=
  let detected := dropout_risk_emotion_words.filter (fun w => inLower w text)
  dropout_emotion_phrases.foldl
    (fun acc p =>
      if reSearch p.2 text ∧ p.1 ∉ acc then acc ++ [p.1] else acc)
    detected

/-- The phrase table of `_detect_positive_recovery_indicators`. -/
def positive_recovery_phrases : List (String × List String) :=
  [("hope", ["hoping", "look forward to", "optimistic", "better next time"]),
   ("determination", ["determined", "will try again", "not giving up", "keep working"]),
   ("gratitude", ["thankful", "appreciate", "grateful", "thanks for"]),
   ("confidence", ["confident", "I can do this", "getting better at", "improving"]),
   ("enthusiasm", ["excited", "looking forward", "can't wait", "eager"])]

/-- `_detect_positive_recovery_indicators` (lines 635-659). -/
def detect_positive_recovery_indicators (text : String) : List String :=
  let detected := positive_recovery_indicator_words.filter (fun w => inLower w text)
  positive_recovery_phrases.foldl
    (fun acc p =>
      if reSearch p.2 text ∧ p.1 ∉ acc then acc ++ [p.1] else acc)
    detected

/-- The trigger table of `_identify_emotional_triggers`; each trigger has a
list of regexes, each expanded into its finite alternation set. -/
def trigger_patterns : List (String × List (List String)) :=
  [("deadline_pressure",
     [["deadline"], ["due date"], ["running out of time"], ["not enough time"]]),
   ("technical_issues",
     [["website doesn't work", "website isn't working", "website broken",
       "system doesn't work", "system isn't working", "system broken",
       "platform doesn't work", "platform isn't working", "platform broken"],
      ["technical issue", "technical problem", "technical error"]]),
   ("content_difficulty",
     [["too difficult", "too hard", "too complex",
       "very difficult", "very hard", "very complex"],
      ["don't understand"], ["confused by"]]),
   ("lack_of_support",
     [["no help", "no support", "no response"],
      ["no one answers", "no one responds"],
      ["waiting for help", "waiting for response"]]),
   ("peer_comparison",
     [["everyone else gets it", "everyone else understands"],
      ["falling behind"], ["only one struggling"]]),
   ("feedback_issues",
     [["no feedback", "unclear feedback", "unhelpful feedback"],
      ["don't know how I'm doing wrong", "don't know what I'm doing wrong"]]),
   ("workload_issues",
     [["too much assignments", "too much tasks", "too much work",
       "too many assignments", "too many tasks", "too many work"],
      ["workload is overwhelming", "workload is too much"]]),
   ("instructor_issues",
     [["instructor doesn't explain", "instructor doesn't clear", "instructor doesn't helpful",
       "instructor isn't explain", "instructor isn't clear", "instructor isn't helpful"],
      ["teaching style"]])]

/-- `_identify_emotional_triggers` (lines 661-684): each trigger is appended
once if any of its patterns matches. -/
def identify_emotional_triggers (text : String) : List String :=
  (trigger_patterns.filter (fun p => p.2.any (fun alts => reSearch alts text))).map (·.1)

/-- `_calculate_emotion_coherence` (lines 686-710). -/
def calculate_emotion_coherence (frustration engagement confidence satisfaction : ℚ) : ℚ :=
  let frustration_satisfaction_coherence := 1 - |(1 - satisfaction) - frustration|
  let engagement_confidence_coherence := 1 - |engagement - confidence|
  frustration_satisfaction_coherence * 0.6 + engagement_confidence_coherence * 0.4

/-- The `authentic_markers` of `_calculate_sentiment_authenticity`,
expanded. -/
def authentic_markers : List String :=
  ["honestly", "to be honest", "frankly", "to tell the truth"] ++
  (["I really ", "I truly "].flatMap fun p =>
    (["feel", "think", "believe"].map fun w => p ++ w)) ++
  ["I'm not going to lie"]

/-- `_calculate_sentiment_authenticity` (lines 712-745).  The three
`mixed_message_patterns` are `A.*B` regexes. -/
def calculate_sentiment_authenticity (text : String) (hidden_dissatisfaction : Bool) : ℚ :=
  let authenticity : ℚ := 0.8
  let authenticity := if hidden_dissatisfaction then authenticity - 0.3 else authenticity
  let authenticity :=
    if reSearch authentic_markers text then authenticity + 0.1 else authenticity
  let mixed :=
    reSeq ["good", "great", "excellent"] ["but", "however", "though"] text ||
    reSeq ["like", "enjoy"] ["but", "however", "though"] text ||
    reSeq ["not complaining", "don't want to complain"] ["but", "however", "though"] text
  let authenticity := if mixed then authenticity - 0.15 else authenticity
  max (min authenticity 1) 0

def emotion_words : List String :=
  ["happy", "sad", "angry", "frustrated", "confused", "anxious", "excited",
   "bored", "interested", "confident", "worried", "overwhelmed", "satisfied",
   "disappointed", "hopeful", "discouraged", "grateful", "annoyed", "proud"]

def positive_emotions : List String :=
  ["happy", "excited", "interested", "confident", "satisfied", "hopeful", "grateful", "proud"]

def negative_emotions : List String :=
  ["sad", "angry", "frustrated", "confused", "anxious", "bored", "worried",
   "overwhelmed", "disappointed", "discouraged", "annoyed"]

/-- `_determine_emotional_complexity` (lines 747-785). -/
def determine_emotional_complexity (text : String) : String :=
  let emotion_count := (emotion_words.filter (fun w => inLower w text)).length
  let has_positive := positive_emotions.any (fun w => inLower w text)
  let has_negative := negative_emotions.any (fun w => inLower w text)
  let has_contradiction := has_positive && has_negative
  let has_explicit_conflict :=
    reSearch ["mixed feelings"] text || reSearch ["conflicted"] text ||
    reSearch ["torn"] text ||
    reSeq ["on one hand"] ["on the other"] text ||
    reSeq ["part of me"] ["another part"] text ||
    reSearch ["both happy and"] text || reSearch ["both frustrated and"] text
  if has_explicit_conflict || (has_contradiction && 3 ≤ emotion_count) then "conflicted"
  else if 4 ≤ emotion_count || (has_contradiction && 2 ≤ emotion_count) then "complex"
  else if 2 ≤ emotion_count then "mixed"
  else "simple"

/-- `AdvancedEmotionAnalyzer.analyze_text` (lines 110-197). -/
def analyze_text (text : String)
    (aspect_scores : Option (List (String × ℤ)) := none)
    (historical_data : Option (List HistEntry) := none) : EmotionProfile :=
  let frustration_level := detect_frustration_level text
  let engagement_level := detect_engagement_level text
  let confidence_level := detect_confidence_level text
  let satisfaction_level := calculate_satisfaction_level text aspect_scores
  let frustration_type := determine_frustration_type text
  let frustration_intensity := determine_frustration_intensity frustration_level
  let frustration_trend := determine_frustration_trend historical_data
  let urgency_level := detect_urgency text
  let urgency_signals := detect_urgency_signals text
  let response_urgency := determine_response_urgency urgency_level frustration_level
  let emotional_temperature := calculate_emotional_temperature text
  let emotional_volatility := calculate_emotional_volatility historical_data
  let emotional_trajectory := determine_emotional_trajectory historical_data
  let hidden := analyze_hidden_dissatisfaction text satisfaction_level
  let politeness_mask_level := calculate_politeness_mask text hidden.1
  let dropout_risk_emotions := detect_dropout_risk_emotions text
  let positive_recovery_indicators := detect_positive_recovery_indicators text
  let emotional_triggers := identify_emotional_triggers text
  let emotion_coherence :=
    calculate_emotion_coherence frustration_level engagement_level confidence_level
      satisfaction_level
  let sentiment_authenticity := calculate_sentiment_authenticity text hidden.1
  let emotional_complexity := determine_emotional_complexity text
  { frustration_level := frustration_level
    engagement_level := engagement_level
    confidence_level := confidence_level
    satisfaction_level := satisfaction_level
    frustration_type := frustration_type
    frustration_intensity := frustration_intensity
    frustration_trend := frustration_trend
    urgency_level := urgency_level
    urgency_signals := urgency_signals
    response_urgency := response_urgency
    emotional_temperature := emotional_temperature
    emotional_volatility := emotional_volatility
    emotional_trajectory := emotional_trajectory
    hidden_dissatisfaction_flag := hidden.1
    hidden_dissatisfaction_confidence := hidden.2.1
    hidden_signals := hidden.2.2
    politeness_mask_level := politeness_mask_level
    dropout_risk_emotions := dropout_risk_emotions
    positive_recovery_indicators := positive_recovery_indicators
    emotional_triggers := emotional_triggers
    emotion_coherence := emotion_coherence
    sentiment_authenticity := sentiment_authenticity
    emotional_complexity := emotional_complexity }

/-! ## Pattern similarity (historical_pattern.py, lines 273-344) -/

/-- `s.lower()` as a `String`. -/
def lowerStr (s : String) : String := ⟨lcChars s⟩

/-- `HistoricalPatternService._urgency_to_numeric` (lines 273-282):
`urgency_map.get(urgency_level.lower(), 0.0)`. -/
def urgency_to_numeric (urgency_level : String) : ℚ :=
  let u := lowerStr urgency_level
  if u = "low" then 0.2
  else if u = "medium" then 0.4
  else if u = "high" then 0.6
  else if u = "critical" then 0.8
  else if u = "immediate" then 1
  else 0

/-- `HistoricalPatternService.calculate_pattern_similarity` (lines 294-344).
Weights: primary emotions 0.4, temperature/volatility 0.2, hidden
dissatisfaction 0.15, urgency 0.15, trajectory 0.1. -/
def calculate_pattern_similarity (pattern1 pattern2 : EmotionProfile) : ℚ :=
  let primary_diff :=
    (|pattern1.frustration_level - pattern2.frustration_level| +
     |pattern1.engagement_level - pattern2.engagement_level| +
     |pattern1.confidence_level - pattern2.confidence_level| +
     |pattern1.satisfaction_level - pattern2.satisfaction_level|) / 4
  let primary_sim := 1 - primary_diff
  let temp_vol_diff :=
    (|pattern1.emotional_temperature - pattern2.emotional_temperature| +
     |pattern1.emotional_volatility - pattern2.emotional_volatility|) / 2
  let temp_vol_sim := 1 - temp_vol_diff
  let hidden_sim : ℚ :=
    if pattern1.hidden_dissatisfaction_flag = pattern2.hidden_dissatisfaction_flag then 1 else 0
  let urgency_sim :=
    1 - |urgency_to_numeric pattern1.urgency_level - urgency_to_numeric pattern2.urgency_level|
  let trajectory_sim : ℚ :=
    if pattern1.emotional_trajectory = pattern2.emotional_trajectory then 1 else 0
  0.4 * primary_sim + 0.2 * temp_vol_sim + 0.15 * hidden_sim +
    0.15 * urgency_sim + 0.1 * trajectory_sim

/-! ## Trajectory predictor (trajectory_predictor.py) -/

/-- `StudentEmotionHistory` (models/emotion_trajectory.py, lines 14-30). -/
structure StudentEmotionHistory where
  student_id : String
  course_id : String
  weeks : List ℤ
  frustration_levels : List ℚ
  engagement_levels : List ℚ
  confidence_levels : List ℚ
  satisfaction_levels : List ℚ
  emotional_trajectories : List String
  hidden_dissatisfaction_flags : List Bool
  urgency_levels : List String
  emotional_temperatures : List ℚ
  emotional_volatilities : List ℚ
deriving DecidableEq, Repr

/-- `max` of a list of rationals (`np.max` / Python `max`; 0 on the empty
list, which the source never hits). -/
def maxQ : List ℚ → ℚ
  | [] => 0
  | x :: xs => xs.foldl max x

/-- `min` of a list of rationals. -/
def minQ : List ℚ → ℚ
  | [] => 0
  | x :: xs => xs.foldl min x

/-- `np.clip(x, 0, 1)`. -/
def clip01 (x : ℚ) : ℚ := min (max x 0) 1

/-- `max(0.0, min(1.0, x))` as written in `_predict_next_value` /
`_predict_polynomial`. -/
def pyClamp01 (x : ℚ) : ℚ := max 0 (min 1 x)

/-- Python `int(q)`: truncation toward zero. -/
def intTrunc (q : ℚ) : ℤ := if 0 ≤ q then ⌊q⌋ else -⌊-q⌋

/-- Mean of a list (`np.mean`; division by zero yields 0, never hit). -/
def meanQ (l : List ℚ) : ℚ := l.sum / (l.length : ℚ)

/-- `np.var`: population variance. -/
def varQ (l : List ℚ) : ℚ := ((l.map (fun x => (x - meanQ l) ^ 2)).sum) / (l.length : ℚ)

/-- Python `l[-n:]`. -/
def lastN {α : Type} (n : Nat) (l : List α) : List α := l.drop (l.length - n)

/-- `np.sqrt` under the exact-rational idealisation: the exact nonnegative
square root when the argument is a square of a rational, 0 otherwise.
Theorems that depend on the root value carry the hypothesis
`sqrtQ d * sqrtQ d = d`, i.e. they describe the exact-arithmetic runs. -/
def sqrtQ (q : ℚ) : ℚ :=
  if 0 ≤ q then
    let n := Nat.sqrt q.num.toNat
    let d := Nat.sqrt q.den
    if n * n = q.num.toNat ∧ d * d = q.den then (n : ℚ) / (d : ℚ) else 0
  else 0

/-- `np.polyfit(x, y, 1)`: least-squares line, returned as
`(slope, intercept)`, via the normal equations (the unique least-squares
solution for a full-rank design, in exact arithmetic). -/
def polyfit1 (xs ys : List ℚ) : ℚ × ℚ :=
  let n : ℚ := (xs.length : ℚ)
  let s1 := xs.sum
  let s2 := (xs.map (· ^ 2)).sum
  let t0 := ys.sum
  let t1 := ((xs.zip ys).map (fun p => p.1 * p.2)).sum
  let slope := (n * t1 - s1 * t0) / (n * s2 - s1 ^ 2)
  let intercept := (t0 - slope * s1) / n
  (slope, intercept)

/-- 3×3 determinant, rows `(a b c) (d e f) (g h i)`. -/
def det3 (a b c d e f g h i : ℚ) : ℚ :=
  a * (e * i - f * h) - b * (d * i - f * g) + c * (d * h - e * g)

/-- `np.polyfit(x, y, 2)`: least-squares parabola `(a, b, c)` with
`p(x) = a·x² + b·x + c`, via Cramer's rule on the normal equations
(the unique least-squares solution for a full-rank design, in exact
arithmetic). -/
def polyfit2 (xs ys : List ℚ) : ℚ × ℚ × ℚ :=
  let n : ℚ := (xs.length : ℚ)
  let s1 := xs.sum
  let s2 := (xs.map (· ^ 2)).sum
  let s3 := (xs.map (· ^ 3)).sum
  let s4 := (xs.map (· ^ 4)).sum
  let t0 := ys.sum
  let t1 := ((xs.zip ys).map (fun p => p.1 * p.2)).sum
  let t2 := ((xs.zip ys).map (fun p => p.1 ^ 2 * p.2)).sum
  let d := det3 s4 s3 s2 s3 s2 s1 s2 s1 n
  (det3 t2 s3 s2 t1 s2 s1 t0 s1 n / d,
   det3 s4 t2 s2 s3 t1 s1 s2 t0 n / d,
   det3 s4 s3 t2 s3 s2 t1 s2 s1 t0 / d)

/-- `_calculate_r_squared` (lines 747-759), specialised to the quadratic
polynomial the two call sites pass in. -/
def rSquaredQ (xs ys : List ℚ) (a b c : ℚ) : ℚ :=
  let y_pred := xs.map (fun x => a * x ^ 2 + b * x + c)
  let ym := meanQ ys
  let ss_total := (ys.map (fun y => (y - ym) ^ 2)).sum
  let ss_residual := ((ys.zip y_pred).map (fun p => (p.1 - p.2) ^ 2)).sum
  if ss_total = 0 then 0 else min (max (1 - ss_residual / ss_total) 0) 1

/-- The quadratic threshold-crossing block that the source duplicates
verbatim in `model_frustration_curve` (lines 122-139) and
`predict_engagement_decline` (lines 203-218): solve
`a·x² + b·x + c = threshold` by the quadratic formula, keep the roots
strictly greater than `current_week`, and return the smallest such root
minus `current_week` (a week count), or `none`. -/
def quad_future_crossing (a b c threshold current_week : ℚ) : Option ℚ :=
  let c' := c - threshold
  let discriminant := b ^ 2 - 4 * a * c'
  if discriminant ≥ 0 then
    let s := sqrtQ discriminant
    let x1 := (-b + s) / (2 * a)
    let x2 := (-b - s) / (2 * a)
    let future_roots := [x1, x2].filter (fun x => x > current_week)
    if future_roots.isEmpty then none
    else some (minQ future_roots - current_week)
  else none

/-- Result of `model_frustration_curve`. -/
structure FrustrationCurve where
  trend : String
  prediction : Option (List (ℚ × ℚ))
  confidence : ℚ
  days_to_threshold : Option ℤ
deriving DecidableEq, Repr

/-- `model_frustration_curve` (lines 71-153). -/
def model_frustration_curve (history : StudentEmotionHistory) : FrustrationCurve :=
  let weeks : List ℚ := history.weeks.map (Int.cast : ℤ → ℚ)
  let frustration_levels := history.frustration_levels
  if weeks.length < 3 then ⟨"insufficient_data", none, 0, none⟩
  else
    let abc := polyfit2 weeks frustration_levels
    let a := abc.1
    let b := abc.2.1
    let c := abc.2.2
    let current_week := maxQ weeks
    let next_weeks := [current_week + 1, current_week + 2, current_week + 3]
    let predicted_frustration := next_weeks.map (fun w => clip01 (a * w ^ 2 + b * w + c))
    let trend :=
      if a > 0.01 then "accelerating_increase"
      else if a < -0.01 then "decelerating"
      else if b > 0.01 then "steady_increase"
      else if b < -0.01 then "steady_decrease"
      else "stable"
    let days_to_threshold : Option ℤ :=
      if maxQ predicted_frustration ≥ 0.8 then
        (quad_future_crossing a b c 0.8 current_week).map (fun wk => intTrunc (wk * 7))
      else none
    let r_squared := rSquaredQ weeks frustration_levels a b c
    let confidence := r_squared * 0.7 + min 1 ((weeks.length : ℚ) / 10) * 0.3
    ⟨trend, some (next_weeks.zip predicted_frustration), confidence, days_to_threshold⟩

/-- Result of `predict_engagement_decline`. -/
structure EngagementDecline where
  trend : String
  prediction : Option (List (ℚ × ℚ))
  dropout_risk : String
  confidence : ℚ
  weeks_to_disengagement : Option ℚ
deriving DecidableEq, Repr

/-- `predict_engagement_decline` (lines 155-233).  Note the final Python
`float(w) if weeks_to_disengagement else None`: a value of exactly 0 would
be reported as `None` (truthiness), which the embedding mirrors. -/
def predict_engagement_decline (history : StudentEmotionHistory) : EngagementDecline :=
  let weeks : List ℚ := history.weeks.map (Int.cast : ℤ → ℚ)
  let engagement_levels := history.engagement_levels
  if weeks.length < 3 then ⟨"insufficient_data", none, "unknown", 0, none⟩
  else
    let abc := polyfit2 weeks engagement_levels
    let a := abc.1
    let b := abc.2.1
    let c := abc.2.2
    let current_week := maxQ weeks
    let next_weeks := [current_week + 1, current_week + 2, current_week + 3]
    let predicted_engagement := next_weeks.map (fun w => clip01 (a * w ^ 2 + b * w + c))
    let dropout_risk :=
      if minQ predicted_engagement < 0.3 then "high"
      else if minQ predicted_engagement < 0.5 then "medium"
      else "low"
    let weeks_to_disengagement : Option ℚ :=
      if minQ predicted_engagement ≤ 0.3 then
        match quad_future_crossing a b c 0.3 current_week with
        | some w => if w = 0 then none else some w
        | none => none
      else none
    let r_squared := rSquaredQ weeks engagement_levels a b c
    let confidence := r_squared * 0.7 + min 1 ((weeks.length : ℚ) / 10) * 0.3
    ⟨if b < 0 then "declining" else "improving",
     some (next_weeks.zip predicted_engagement), dropout_risk, confidence,
     weeks_to_disengagement⟩

/-- Result of `predict_hidden_dissatisfaction`. -/
structure HiddenDissatisfactionRisk where
  risk : String
  explosion_probability : ℚ
  days_to_explosion : Option ℤ
  confidence : ℚ
deriving DecidableEq, Repr

/-- `predict_hidden_dissatisfaction` (lines 235-313). -/
def predict_hidden_dissatisfaction (history : StudentEmotionHistory) : HiddenDissatisfactionRisk :=
  let weeks := history.weeks
  let hidden_flags := history.hidden_dissatisfaction_flags
  let satisfaction_levels := history.satisfaction_levels
  let frustration_levels := history.frustration_levels
  if weeks.length < 3 then ⟨"insufficient_data", 0, none, 0⟩
  else
    let consecutive_hidden_weeks := (hidden_flags.reverse.takeWhile (fun b => b)).length
    let frustration_increasing :=
      if 3 ≤ frustration_levels.length then
        let recent := lastN 3 frustration_levels
        decide (recent.getD 2 0 > recent.getD 0 0)
      else false
    let satisfaction_stable :=
      if 3 ≤ satisfaction_levels.length then
        let recent := lastN 3 satisfaction_levels
        decide (maxQ recent - minQ recent < 0.2 ∧ minQ recent > 0.5)
      else false
    let chw : ℚ := (consecutive_hidden_weeks : ℚ)
    let data_points_factor : ℚ := min 1 ((weeks.length : ℚ) / 10)
    let pattern_strength : ℚ := if 0 < consecutive_hidden_weeks then 0.5 + 0.1 * chw else 0.5
    let confidence := data_points_factor * 0.5 + pattern_strength * 0.5
    if 3 ≤ consecutive_hidden_weeks ∧ frustration_increasing ∧ satisfaction_stable then
      ⟨"high", min 0.9 (0.5 + chw * 0.1),
       some (max 1 (14 - (consecutive_hidden_weeks : ℤ) * 2)), confidence⟩
    else if 2 ≤ consecutive_hidden_weeks ∧ frustration_increasing then
      ⟨"medium", min 0.7 (0.3 + chw * 0.1),
       some (max 3 (21 - (consecutive_hidden_weeks : ℤ) * 2)), confidence⟩
    else if 1 ≤ consecutive_hidden_weeks then
      ⟨"low", min 0.4 (0.1 + chw * 0.1),
       some (max 7 (28 - (consecutive_hidden_weeks : ℤ) * 2)), confidence⟩
    else
      ⟨"minimal", 0.1, none, confidence⟩

/-- One horizon's emotion prediction (the dict returned by
`predict_next_week_emotions` and friends). -/
structure EmotionPrediction where
  frustration_level : ℚ
  engagement_level : ℚ
  confidence_level : ℚ
  satisfaction_level : ℚ
  emotional_temperature : ℚ
deriving DecidableEq, Repr

/-- `_default_emotion_prediction` (lines 761-771). -/
def default_emotion_prediction : EmotionPrediction := ⟨0.5, 0.5, 0.5, 0.5, 0.5⟩

/-- `_predict_next_value` (lines 709-728): linear fit evaluated at
`max(weeks) + 1`, clamped to `[0, 1]`. -/
def predict_next_value (weeks values : List ℚ) : ℚ :=
  if weeks.length < 2 then values.getLastD 0.5
  else
    let sl := polyfit1 weeks values
    pyClamp01 (sl.1 * (maxQ weeks + 1) + sl.2)

/-- `_predict_polynomial` (lines 730-745). -/
def predict_polynomial (weeks values : List ℚ) (target_week : ℚ) : ℚ :=
  if weeks.length < 3 then
    let sl := polyfit1 weeks values
    pyClamp01 (sl.1 * target_week + sl.2)
  else
    let abc := polyfit2 weeks values
    pyClamp01 (abc.1 * target_week ^ 2 + abc.2.1 * target_week + abc.2.2)

/-- `predict_next_week_emotions` (lines 315-344). -/
def predict_next_week_emotions (history : StudentEmotionHistory) : EmotionPrediction :=
  if history.weeks.length < 2 then default_emotion_prediction
  else
    let weeks : List ℚ := history.weeks.map (Int.cast : ℤ → ℚ)
    let f := predict_next_value weeks history.frustration_levels
    let e := predict_next_value weeks history.engagement_levels
    let c := predict_next_value weeks history.confidence_levels
    let s := predict_next_value weeks history.satisfaction_levels
    ⟨f, e, c, s, f * 0.7 + (1 - e) * 0.3⟩

/-- `predict_two_week_emotions` (lines 346-382). -/
def predict_two_week_emotions (history : StudentEmotionHistory) : EmotionPrediction :=
  if history.weeks.length < 3 then default_emotion_prediction
  else
    let weeks : List ℚ := history.weeks.map (Int.cast : ℤ → ℚ)
    let target := maxQ weeks + 2
    let f := predict_polynomial weeks history.frustration_levels target
    let e := predict_polynomial weeks history.engagement_levels target
    let c := predict_polynomial weeks history.confidence_levels target
    let s := predict_polynomial weeks history.satisfaction_levels target
    ⟨f, e, c, s, f * 0.7 + (1 - e) * 0.3⟩

/-- `predict_end_course_emotions` (lines 384-436): course length is assumed
to be 12 weeks; past week 10 only the last 3 observations are used. -/
def predict_end_course_emotions (history : StudentEmotionHistory) : EmotionPrediction :=
  if history.weeks.length < 3 then default_emotion_prediction
  else
    let weeks : List ℚ := history.weeks.map (Int.cast : ℤ → ℚ)
    let end_week : ℚ := 12
    if maxQ weeks ≥ 10 then
      let recent_weeks := lastN 3 weeks
      let f := predict_polynomial recent_weeks (lastN 3 history.frustration_levels) end_week
      let e := predict_polynomial recent_weeks (lastN 3 history.engagement_levels) end_week
      let c := predict_polynomial recent_weeks (lastN 3 history.confidence_levels) end_week
      let s := predict_polynomial recent_weeks (lastN 3 history.satisfaction_levels) end_week
      ⟨f, e, c, s, f * 0.7 + (1 - e) * 0.3⟩
    else
      let f := predict_polynomial weeks history.frustration_levels end_week
      let e := predict_polynomial weeks history.engagement_levels end_week
      let c := predict_polynomial weeks history.confidence_levels end_week
      let s := predict_polynomial weeks history.satisfaction_levels end_week
      ⟨f, e, c, s, f * 0.7 + (1 - e) * 0.3⟩

/-- Result of `predict_frustration_threshold`. -/
structure FrustrationThresholdRisk where
  risk_level : String
  days_to_threshold : Option ℤ
  intervention_urgency : String
  confidence : ℚ
deriving DecidableEq, Repr

/-- `predict_frustration_threshold` (lines 438-483). -/
def predict_frustration_threshold (frustration_trajectory : FrustrationCurve) :
    FrustrationThresholdRisk :=
  let trend := frustration_trajectory.trend
  let days_to_threshold := frustration_trajectory.days_to_threshold
  let confidence := frustration_trajectory.confidence
  let trending_up := trend = "accelerating_increase" ∨ trend = "steady_increase"
  let risk_level :=
    if trend = "insufficient_data" then "unknown"
    else
      match days_to_threshold with
      | some d =>
        if d ≤ 3 then "critical"
        else if d ≤ 7 then "high"
        else if d ≤ 14 then "medium"
        else if trending_up then "low"
        else "minimal"
      | none => if trending_up then "low" else "minimal"
  let intervention_urgency :=
    if risk_level = "critical" then "immediate"
    else if risk_level = "high" then "within_24_hours"
    else if risk_level = "medium" then "within_week"
    else "routine"
  ⟨risk_level, days_to_threshold, intervention_urgency, confidence⟩

/-- Result of `predict_engagement_dropout`. -/
structure EngagementDropoutRisk where
  dropout_risk : String
  weeks_to_disengagement : Option ℚ
  intervention_type : String
  days_to_intervention : Option ℤ
  confidence : ℚ
deriving DecidableEq, Repr

/-- `predict_engagement_dropout` (lines 485-522). -/
def predict_engagement_dropout (engagement_decay : EngagementDecline) : EngagementDropoutRisk :=
  let dropout_risk := engagement_decay.dropout_risk
  let weeks_to_disengagement := engagement_decay.weeks_to_disengagement
  let intervention_type :=
    if dropout_risk = "high" then "intensive_support"
    else if dropout_risk = "medium" then "targeted_engagement"
    else if dropout_risk = "low" then "preventive_check_in"
    else "routine_monitoring"
  let days_to_intervention : Option ℤ :=
    match weeks_to_disengagement with
    | some w => some (max 1 (intTrunc (w * 7 - 7)))
    | none => none
  ⟨dropout_risk, weeks_to_disengagement, intervention_type, days_to_intervention,
   engagement_decay.confidence⟩

/-- Result of `predict_dissatisfaction_explosion`. -/
structure DissatisfactionExplosionRisk where
  risk : String
  explosion_probability : ℚ
  days_to_explosion : Option ℤ
  intervention_approach : String
  intervention_timing : String
  confidence : ℚ
deriving DecidableEq, Repr

/-- `predict_dissatisfaction_explosion` (lines 524-568). -/
def predict_dissatisfaction_explosion (hidden_dissatisfaction : HiddenDissatisfactionRisk) :
    DissatisfactionExplosionRisk :=
  let risk := hidden_dissatisfaction.risk
  let intervention_approach :=
    if risk = "high" then "empathetic_outreach"
    else if risk = "medium" then "indirect_support"
    else if risk = "low" then "subtle_check_in"
    else "routine_monitoring"
  let intervention_timing :=
    match hidden_dissatisfaction.days_to_explosion with
    | some d => if d ≤ 3 then "immediate" else if d ≤ 7 then "this_week" else "next_week"
    | none => "routine"
  ⟨risk, hidden_dissatisfaction.explosion_probability, hidden_dissatisfaction.days_to_explosion,
   intervention_approach, intervention_timing, hidden_dissatisfaction.confidence⟩

/-- One element of the `urgent_interventions` list built by
`find_intervention_windows`: `{'type', 'days', 'urgency', 'confidence'}`. -/
structure UrgentIntervention where
  type : String
  days : ℤ
  urgency : String
  confidence : ℚ
deriving DecidableEq, Repr

/-- `EmotionTrajectoryPredictor._urgency_to_numeric` (lines 773-785). -/
def urgency_to_numeric_sort (urgency : String) : ℤ :=
  if urgency = "immediate" then 0
  else if urgency = "within_24_hours" then 1
  else if urgency = "this_week" then 2
  else if urgency = "within_week" then 2
  else if urgency = "next_week" then 3
  else if urgency = "routine" then 4
  else 5

/-- The Python sort key
`(urgency_to_numeric(urgency), -days, -confidence)` (line 623). -/
def interventionKey (x : UrgentIntervention) : ℤ × ℤ × ℚ :=
  (urgency_to_numeric_sort x.urgency, -x.days, -x.confidence)

/-- Lexicographic order on the sort key (Python tuple comparison). -/
def keyLe : ℤ × ℤ × ℚ → ℤ × ℤ × ℚ → Prop := fun p q =>
  p.1 < q.1 ∨ (p.1 = q.1 ∧ (p.2.1 < q.2.1 ∨ (p.2.1 = q.2.1 ∧ p.2.2 ≤ q.2.2)))

instance : DecidableRel keyLe := fun p q =>
  inferInstanceAs (Decidable (p.1 < q.1 ∨ (p.1 = q.1 ∧ (p.2.1 < q.2.1 ∨ (p.2.1 = q.2.1 ∧ p.2.2 ≤ q.2.2)))))

/-- The list ordering used by `urgent_interventions.sort(key=...)`. -/
def interventionLe (x y : UrgentIntervention) : Prop := keyLe (interventionKey x) (interventionKey y)

instance : DecidableRel interventionLe := fun x y =>
  inferInstanceAs (Decidable (keyLe (interventionKey x) (interventionKey y)))

theorem keyLe_total (p q : ℤ × ℤ × ℚ) : keyLe p q ∨ keyLe q p := by
  unfold keyLe
  rcases lt_trichotomy p.1 q.1 with h | h | h
  · exact Or.inl (Or.inl h)
  · rcases lt_trichotomy p.2.1 q.2.1 with h2 | h2 | h2
    · exact Or.inl (Or.inr ⟨h, Or.inl h2⟩)
    · rcases le_total p.2.2 q.2.2 with h3 | h3
      · exact Or.inl (Or.inr ⟨h, Or.inr ⟨h2, h3⟩⟩)
      · exact Or.inr (Or.inr ⟨h.symm, Or.inr ⟨h2.symm, h3⟩⟩)
    · exact Or.inr (Or.inr ⟨h.symm, Or.inl h2⟩)
  · exact Or.inr (Or.inl h)

theorem keyLe_trans {p q r : ℤ × ℤ × ℚ} (h1 : keyLe p q) (h2 : keyLe q r) : keyLe p r := by
  unfold keyLe at h1 h2 ⊢
  rcases h1 with h1 | ⟨e1, h1⟩
  · rcases h2 with h2 | ⟨e2, _⟩
    · exact Or.inl (h1.trans h2)
    · exact Or.inl (e2 ▸ h1)
  · rcases h2 with h2 | ⟨e2, h2⟩
    · exact Or.inl (e1 ▸ h2)
    · refine Or.inr ⟨e1.trans e2, ?_⟩
      rcases h1 with h1 | ⟨f1, h1⟩
      · rcases h2 with h2 | ⟨f2, _⟩
        · exact Or.inl (h1.trans h2)
        · exact Or.inl (f2 ▸ h1)
      · rcases h2 with h2 | ⟨f2, h2⟩
        · exact Or.inl (f1 ▸ h2)
        · exact Or.inr ⟨f1.trans f2, h1.trans h2⟩

instance : IsTotal UrgentIntervention interventionLe :=
  ⟨fun x y => keyLe_total (interventionKey x) (interventionKey y)⟩

instance : IsTrans UrgentIntervention interventionLe :=
  ⟨fun _ _ _ h1 h2 => keyLe_trans h1 h2⟩

/-- One intervention window of the result dict: `type`, `timing`,
`days_from_now`, `confidence`, and (always added at lines 655-661)
`target_date = now + timedelta(days)`.  The wall clock `datetime.now()` is
modelled by an explicit day-index parameter `now`, and the `'%Y-%m-%d'`
formatting is abstracted away: `target_date` is kept as the day index
`now + days_from_now`. -/
structure InterventionWindow where
  type : String
  timing : String
  days_from_now : ℤ
  confidence : ℚ
  target_date : ℤ
deriving DecidableEq, Repr

/-- The `intervention_windows` dict: a guaranteed primary window and an
optional secondary one. -/
structure InterventionWindows where
  primary : InterventionWindow
  secondary : Option InterventionWindow
deriving DecidableEq, Repr

/-- The dict `{'next_week': ..., 'two_week': ..., 'course_completion': ...}`. -/
structure EmotionPredictions where
  next_week : EmotionPrediction
  two_week : EmotionPrediction
  course_completion : EmotionPrediction
deriving DecidableEq, Repr

/-- The dict of the three risk escalations. -/
structure RiskEscalations where
  frustration_boiling_point : FrustrationThresholdRisk
  engagement_dropout_risk : EngagementDropoutRisk
  hidden_to_open_dissatisfaction : DissatisfactionExplosionRisk
deriving DecidableEq, Repr

/-- The candidate list built at lines 589-619, in source order
(frustration, engagement, dissatisfaction). -/
def build_urgent_interventions (risks : RiskEscalations) : List UrgentIntervention :=
  (match risks.frustration_boiling_point.days_to_threshold with
   | some d =>
     if d ≤ 7 then
       [⟨"frustration_intervention", d,
         risks.frustration_boiling_point.intervention_urgency,
         risks.frustration_boiling_point.confidence⟩]
     else []
   | none => []) ++
  (match risks.engagement_dropout_risk.days_to_intervention with
   | some d =>
     [⟨"engagement_intervention", d,
       if d ≤ 7 then "within_week" else "routine",
       risks.engagement_dropout_risk.confidence⟩]
   | none => []) ++
  (match risks.hidden_to_open_dissatisfaction.days_to_explosion with
   | some d =>
     [⟨"dissatisfaction_intervention", d,
       risks.hidden_to_open_dissatisfaction.intervention_timing,
       risks.hidden_to_open_dissatisfaction.confidence⟩]
   | none => [])

/-- Window record built from a sorted candidate (lines 630-645), with the
target date added (lines 655-661). -/
def mkWindow (now : ℤ) (x : UrgentIntervention) : InterventionWindow :=
  ⟨x.type, x.urgency, x.days, x.confidence, now + x.days⟩

/-- The fallback `routine_check_in` primary window (lines 646-653). -/
def routine_check_in_window (now : ℤ) : InterventionWindow :=
  ⟨"routine_check_in", "routine", 14, 0.5, now + 14⟩

/-- `find_intervention_windows` (lines 570-663).  `emotion_predictions` is a
parameter of the source method that its body never reads.  The Python
`list.sort` (stable, ascending by key) is modelled by Mathlib's stable
`List.insertionSort` under `interventionLe`. -/
def find_intervention_windows (now : ℤ) (emotion_predictions : EmotionPredictions)
    (risks : RiskEscalations) : InterventionWindows :=
  let _ := emotion_predictions
  let urgent_interventions :=
    List.insertionSort interventionLe (build_urgent_interventions risks)
  match urgent_interventions with
  | [] => ⟨routine_check_in_window now, none⟩
  | most_urgent :: rest => ⟨mkWindow now most_urgent, rest.head?.map (mkWindow now)⟩

/-- The dict returned by `calculate_prediction_confidence`. -/
structure ConfidenceScores where
  next_week : ℚ
  two_week : ℚ
  course_completion : ℚ
  frustration_threshold : ℚ
  engagement_dropout : ℚ
  dissatisfaction_explosion : ℚ
  intervention_windows : ℚ
  overall : ℚ
deriving DecidableEq, Repr

/-- `calculate_prediction_confidence` (lines 665-707).  Note that the
source's recency test `max(history.weeks) >= max(history.weeks) - 2` is
trivially true, so the recency factor is 0.9 whenever there are at least 3
data points. -/
def calculate_prediction_confidence (history : StudentEmotionHistory) : ConfidenceScores :=
  let data_points := history.weeks.length
  let data_quality_factor : ℚ := min 1 ((data_points : ℚ) / 10)
  let frustration_variance := if 1 < data_points then varQ history.frustration_levels else 1
  let engagement_variance := if 1 < data_points then varQ history.engagement_levels else 1
  let consistency_factor := 1 - min 1 ((frustration_variance + engagement_variance) / 2)
  let recency_factor : ℚ := if 3 ≤ data_points then 0.9 else 0.7
  let base := data_quality_factor * 0.4 + consistency_factor * 0.3 + recency_factor * 0.3
  ⟨min 0.95 (base * 1.2), min 0.9 (base * 1), min 0.8 (base * 0.8), min 0.9 (base * 1.1),
   min 0.85 (base * 1), min 0.8 (base * 0.9), min 0.85 (base * 1), base⟩

/-- `EmotionTrajectoryPrediction` (models/emotion_trajectory.py, lines 4-12). -/
structure EmotionTrajectoryPrediction where
  emotion_predictions : EmotionPredictions
  risk_escalations : RiskEscalations
  optimal_intervention_windows : InterventionWindows
  confidence_scores : ConfidenceScores
deriving DecidableEq, Repr

/-- `predict_emotion_evolution` (lines 23-69).  `now` is the wall-clock day
index read by `find_intervention_windows` via `datetime.now()`. -/
def predict_emotion_evolution (now : ℤ) (student_emotion_history : StudentEmotionHistory) :
    EmotionTrajectoryPrediction :=
  let frustration_trajectory := model_frustration_curve student_emotion_history
  let engagement_decay := predict_engagement_decline student_emotion_history
  let hidden := predict_hidden_dissatisfaction student_emotion_history
  let emotion_predictions : EmotionPredictions :=
    ⟨predict_next_week_emotions student_emotion_history,
     predict_two_week_emotions student_emotion_history,
     predict_end_course_emotions student_emotion_history⟩
  let risk_escalations : RiskEscalations :=
    ⟨predict_frustration_threshold frustration_trajectory,
     predict_engagement_dropout engagement_decay,
     predict_dissatisfaction_explosion hidden⟩
  let optimal_intervention_windows :=
    find_intervention_windows now emotion_predictions risk_escalations
  let confidence_scores := calculate_prediction_confidence student_emotion_history
  ⟨emotion_predictions, risk_escalations, optimal_intervention_windows, confidence_scores⟩

/-! ## Claim-side reference definitions and concrete scenario inputs -/

/-- A reference profile with neutral values (all fields populated the way
`analyze_text` populates them for neutral text). -/
def technicalProfile : EmotionProfile :=
  { frustration_level := 1/2, engagement_level := 1/2, confidence_level := 1/2,
    satisfaction_level := 1/2, frustration_type := "technical",
    frustration_intensity := "moderate", frustration_trend := "stable",
    urgency_level := "low", urgency_signals := [], response_urgency := "routine",
    emotional_temperature := 1/2, emotional_volatility := 3/10,
    emotional_trajectory := "neutral", hidden_dissatisfaction_flag := false,
    hidden_dissatisfaction_confidence := 0, hidden_signals := [],
    politeness_mask_level := 0, dropout_risk_emotions := [],
    positive_recovery_indicators := [], emotional_triggers := [],
    emotion_coherence := 7/10, sentiment_authenticity := 4/5,
    emotional_complexity := "simple" }

/-- The same profile with `frustration_type = "content"` and every other
field unchanged. -/
def contentProfile : EmotionProfile := { technicalProfile with frustration_type := "content" }

/-- Scenario B text of the specification. -/
def scenarioB : String := "The course is fine I guess, somewhat helpful, probably just me"

/-! ## C2: similarity is reflexive (value 1) and symmetric -/

/-- C2: for every profile `a`, `calculate_pattern_similarity a a = 1`, and
for all `a, b`, `calculate_pattern_similarity a b =
calculate_pattern_similarity b a`. -/
theorem C2_similarity_reflexive_and_symmetric :
    (∀ a : EmotionProfile, calculate_pattern_similarity a a = 1) ∧
    (∀ a b : EmotionProfile,
      calculate_pattern_similarity a b = calculate_pattern_similarity b a) := by
  constructor
  · intro a
    simp only [calculate_pattern_similarity, sub_self, abs_zero, if_pos rfl]
    norm_num
  · intro a b
    have hIf : ∀ {α : Type} [DecidableEq α] (x y : α),
        (if x = y then (1 : ℚ) else 0) = (if y = x then 1 else 0) := by
      intro α _ x y
      by_cases h : x = y
      · rw [if_pos h, if_pos h.symm]
      · rw [if_neg h, if_neg (fun hh => h hh.symm)]
    simp only [calculate_pattern_similarity]
    rw [abs_sub_comm a.frustration_level, abs_sub_comm a.engagement_level,
        abs_sub_comm a.confidence_level, abs_sub_comm a.satisfaction_level,
        abs_sub_comm a.emotional_temperature, abs_sub_comm a.emotional_volatility,
        abs_sub_comm (urgency_to_numeric a.urgency_level),
        hIf a.hidden_dissatisfaction_flag, hIf a.emotional_trajectory]

/-! ## C10: any text containing "urgent" is classified immediate -/

/-- C10: for every text whose lowercased form contains the substring
"urgent" (including "not urgent" phrasings), `_detect_urgency` returns
"immediate", because the immediate phrase set contains "urgent" and is
scanned first. -/
theorem C10_urgent_substring_immediate (t : String)
    (h : inLower "urgent" t = true) : detect_urgency t = "immediate" := by
  have himm : reSearch urgency_phrases_immediate t = true :=
    List.any_eq_true.mpr ⟨"urgent", by simp [urgency_phrases_immediate], h⟩
  simp [detect_urgency, himm]

/-- Witness for C10 at the lexicon's own low-urgency phrasing. -/
theorem C10_urgent_substring_immediate_witness :
    detect_urgency "this is not urgent at all" = "immediate" :=
  C10_urgent_substring_immediate "this is not urgent at all" (by with_unfolding_all decide)

/-! ## C4: profiles differing only in frustration_type -/

/-- C4 counterexample: two profiles identical except for
`frustration_type` ("technical" vs "content") have similarity exactly 1,
hence NOT strictly less than 1 as the claim states:
`calculate_pattern_similarity` never reads `frustration_type`. -/
theorem C4_counterexample :
    calculate_pattern_similarity technicalProfile contentProfile = 1 ∧
    ¬ calculate_pattern_similarity technicalProfile contentProfile < 1 := by
  constructor
  · with_unfolding_all decide
  · with_unfolding_all decide

/-- C4 amended: changing only `frustration_type` leaves the similarity at
exactly 1 (in particular greater than 0.8 but not less than 1), for every
profile and every replacement type string. -/
theorem C4_amended (a : EmotionProfile) (t : String) :
    calculate_pattern_similarity a { a with frustration_type := t } = 1 := by
  simp only [calculate_pattern_similarity, sub_self, abs_zero, if_pos rfl]
  norm_num

/-! ## C9: Scenario B hidden dissatisfaction -/

/-- C9 counterexample: on Scenario B's text the flag is set but the
confidence is 0.45, strictly below the claimed 0.5 (three signals give a
base of 0.75, and the text-only satisfaction level 1.0 > 0.7 triggers the
-0.3 adjustment). -/
theorem C9_counterexample :
    ¬ ((analyze_text scenarioB none none).hidden_dissatisfaction_flag = true ∧
       (analyze_text scenarioB none none).hidden_dissatisfaction_confidence ≥ 1/2) := by
  with_unfolding_all decide

/-- C9 amended: on Scenario B's text, `analyze_text` flags hidden
dissatisfaction with confidence exactly 9/20 = 0.45. -/
theorem C9_amended :
    (analyze_text scenarioB none none).hidden_dissatisfaction_flag = true ∧
    (analyze_text scenarioB none none).hidden_dissatisfaction_confidence = 9/20 := by
  with_unfolding_all decide

/-! ## C8: out-of-range aspect scores -/

/-- What the claim says `_calculate_satisfaction_level` does (spec words):
drop the aspect entries whose value is outside 1..5, then compute as
usual. -/
def claimC8_filtered_satisfaction (text : String)
    (aspect_scores : Option (List (String × ℤ))) : ℚ :=
  calculate_satisfaction_level text
    (aspect_scores.map (fun l => l.filter (fun p => decide (1 ≤ p.2 ∧ p.2 ≤ 5))))

/-- C8 counterexample: with the single out-of-range aspect entry
`{"clarity": 9}` and empty text, the code returns satisfaction 11/10
(the entry is averaged in, even pushing the value above 1), while the
claimed ignore-and-continue semantics would return 1/2. -/
theorem C8_counterexample :
    (analyze_text "" (some [("clarity", 9)]) none).satisfaction_level = 11/10 ∧
    claimC8_filtered_satisfaction "" (some [("clarity", 9)]) = 1/2 ∧
    ¬ (analyze_text "" (some [("clarity", 9)]) none).satisfaction_level ≤ 1 := by
  refine ⟨by with_unfolding_all decide, by with_unfolding_all decide, by with_unfolding_all decide⟩

/-- C8 amended: out-of-range aspect values are NOT ignored: for every text
and every nonempty aspect map, every entry's value (in range or not)
enters the normalized aspect mean that is blended 0.6/0.4 with the
text-derived satisfaction, and `analyze_text` still (totally) returns a
profile. -/
theorem C8_amended (text : String) (p : String × ℤ) (rest : List (String × ℤ)) :
    (analyze_text text (some (p :: rest)) none).satisfaction_level =
      calculate_satisfaction_level text none * 0.6 +
        (((((p :: rest).map (fun q => q.2)).sum : ℤ) : ℚ) / ((p :: rest).length : ℚ) - 1) / 4
          * 0.4 :=
  rfl

/-! ## C5 counterexample: empty text -/

/-- C5 counterexample: on the empty string the frustration level is 0, not
the claimed 0.5 (`_detect_frustration_level` is a pure keyword count with
no neutral default). -/
theorem C5_counterexample :
    (analyze_text "" none none).frustration_level = 0 ∧
    (analyze_text "" none none).frustration_level ≠ 1/2 := by
  refine ⟨by with_unfolding_all decide, by with_unfolding_all decide⟩

/-! ## C7: intervention-window selection order -/

theorem keyLe_refl (p : ℤ × ℤ × ℚ) : keyLe p p := Or.inr ⟨rfl, Or.inr ⟨rfl, le_refl _⟩⟩

/-- The ranking rule exactly as claim C7 states it (refinement reference):
urgency rank ascending, then days-to-threshold ASCENDING, then confidence
descending. -/
def claimC7Key (x : UrgentIntervention) : ℤ × ℤ × ℚ :=
  (urgency_to_numeric_sort x.urgency, x.days, -x.confidence)

/-- Order induced by `claimC7Key`. -/
def claimC7Le (x y : UrgentIntervention) : Prop := keyLe (claimC7Key x) (claimC7Key y)

instance : DecidableRel claimC7Le := fun x y =>
  inferInstanceAs (Decidable (keyLe (claimC7Key x) (claimC7Key y)))

/-- Window selection following the claim's words (ascending days). -/
def claimC7_windows (now : ℤ) (risks : RiskEscalations) : InterventionWindows :=
  match List.insertionSort claimC7Le (build_urgent_interventions risks) with
  | [] => ⟨routine_check_in_window now, none⟩
  | c :: rest => ⟨mkWindow now c, rest.head?.map (mkWindow now)⟩

def c7_predictions : EmotionPredictions :=
  ⟨default_emotion_prediction, default_emotion_prediction, default_emotion_prediction⟩

def c7_frustration_risk : FrustrationThresholdRisk := ⟨"minimal", none, "routine", 1/2⟩

def c7_engagement_risk : EngagementDropoutRisk :=
  ⟨"high", some (10/7), "intensive_support", some 3, 3/5⟩

def c7_dissatisfaction_risk : DissatisfactionExplosionRisk :=
  ⟨"medium", 7/10, some 7, "indirect_support", "this_week", 3/5⟩

def c7_risks : RiskEscalations :=
  ⟨c7_frustration_risk, c7_engagement_risk, c7_dissatisfaction_risk⟩

/-- C7 counterexample: with two candidates of equal urgency rank
("within_week" and "this_week" both rank 2) and equal confidence, days 3
(engagement) and days 7 (dissatisfaction), the code's key `(urgency,
-days, -confidence)` sorts the 7-day window FIRST, while the claim's
ascending-days ranking would report the 3-day window as primary. -/
theorem C7_counterexample :
    (find_intervention_windows 0 c7_predictions c7_risks).primary.days_from_now = 7 ∧
    (claimC7_windows 0 c7_risks).primary.days_from_now = 3 ∧
    find_intervention_windows 0 c7_predictions c7_risks ≠ claimC7_windows 0 c7_risks := by
  refine ⟨by with_unfolding_all decide, by with_unfolding_all decide,
    by with_unfolding_all decide⟩

/-- C7 amended: `find_intervention_windows` ranks the candidate risk types
by urgency rank ascending, then days DESCENDING, then confidence
descending (the Python key is `(urgency, -days, -confidence)`), reports
the first as primary and the second (when present) as secondary, each
with `target_date = now + days`; with no candidate at all the primary is
the routine 14-day check-in. -/
theorem C7_amended (now : ℤ) (ep : EmotionPredictions) (risks : RiskEscalations) :
    (build_urgent_interventions risks = [] →
      find_intervention_windows now ep risks =
        ⟨routine_check_in_window now, none⟩) ∧
    (build_urgent_interventions risks ≠ [] →
      ∃ c0 ∈ build_urgent_interventions risks,
        (∀ c ∈ build_urgent_interventions risks, interventionLe c0 c) ∧
        (find_intervention_windows now ep risks).primary = mkWindow now c0 ∧
        ((build_urgent_interventions risks).erase c0 = [] →
          (find_intervention_windows now ep risks).secondary = none) ∧
        ((build_urgent_interventions risks).erase c0 ≠ [] →
          ∃ c1 ∈ (build_urgent_interventions risks).erase c0,
            (∀ c ∈ (build_urgent_interventions risks).erase c0, interventionLe c1 c) ∧
            (find_intervention_windows now ep risks).secondary = some (mkWindow now c1))) ∧
    ((find_intervention_windows now ep risks).primary.target_date =
      now + (find_intervention_windows now ep risks).primary.days_from_now) ∧
    (∀ s, (find_intervention_windows now ep risks).secondary = some s →
      s.target_date = now + s.days_from_now) := by
  classical
  have hperm : List.Perm (List.insertionSort interventionLe (build_urgent_interventions risks))
      (build_urgent_interventions risks) := List.perm_insertionSort _ _
  have hsorted : List.Sorted interventionLe
      (List.insertionSort interventionLe (build_urgent_interventions risks)) :=
    List.sorted_insertionSort interventionLe _
  have hfw : find_intervention_windows now ep risks =
      (match List.insertionSort interventionLe (build_urgent_interventions risks) with
       | [] => (⟨routine_check_in_window now, none⟩ : InterventionWindows)
       | c :: rest => ⟨mkWindow now c, rest.head?.map (mkWindow now)⟩) := rfl
  obtain ⟨l, hsort⟩ : ∃ l, List.insertionSort interventionLe (build_urgent_interventions risks) = l :=
    ⟨_, rfl⟩
  rcases l with _ | ⟨c0, rest⟩
  · -- empty sorted list: no candidates at all
    rw [hsort] at hperm hfw
    have hnil : build_urgent_interventions risks = [] := hperm.symm.eq_nil
    refine ⟨fun _ => hfw, fun hne => absurd hnil hne, ?_, ?_⟩
    · rw [hfw]
      simp [routine_check_in_window]
    · intro s hs
      rw [hfw] at hs
      simp at hs
  · rw [hsort] at hperm hfw
    have hne : build_urgent_interventions risks ≠ [] := by
      intro h
      rw [h] at hperm
      exact absurd hperm.eq_nil (by simp)
    have hc0mem : c0 ∈ build_urgent_interventions risks :=
      hperm.subset (List.mem_cons_self _ _)
    have hc0min : ∀ c ∈ build_urgent_interventions risks, interventionLe c0 c := by
      intro c hc
      rcases List.mem_cons.mp (hperm.symm.subset hc) with h | h
      · subst h; exact keyLe_refl _
      · rw [hsort] at hsorted
        exact List.rel_of_sorted_cons hsorted c h
    refine ⟨fun h => absurd h hne, fun _ => ⟨c0, hc0mem, hc0min, ?_, ?_, ?_⟩, ?_, ?_⟩
    · rw [hfw]
    · -- erase empty → no secondary
      intro hera
      rcases rest with _ | ⟨c1, rest2⟩
      · rw [hfw]; rfl
      · exfalso
        have h1 : List.Perm (build_urgent_interventions risks)
            (c0 :: (build_urgent_interventions risks).erase c0) :=
          List.perm_cons_erase hc0mem
        have h2 : List.Perm (c1 :: rest2) ((build_urgent_interventions risks).erase c0) :=
          ((hperm.trans h1).cons_inv)
        rw [hera] at h2
        exact absurd h2.eq_nil (by simp)
    · intro hera
      rcases rest with _ | ⟨c1, rest2⟩
      · exfalso
        have h1 : List.Perm (build_urgent_interventions risks)
            (c0 :: (build_urgent_interventions risks).erase c0) :=
          List.perm_cons_erase hc0mem
        have h2 : List.Perm ([] : List UrgentIntervention)
            ((build_urgent_interventions risks).erase c0) :=
          ((hperm.trans h1).cons_inv)
        exact hera h2.symm.eq_nil
      · have h1 : List.Perm (build_urgent_interventions risks)
            (c0 :: (build_urgent_interventions risks).erase c0) :=
          List.perm_cons_erase hc0mem
        have h2 : List.Perm (c1 :: rest2) ((build_urgent_interventions risks).erase c0) :=
          ((hperm.trans h1).cons_inv)
        refine ⟨c1, h2.subset (List.mem_cons_self _ _), ?_, ?_⟩
        · intro c hc
          rcases List.mem_cons.mp (h2.symm.subset hc) with h | h
          · subst h; exact keyLe_refl _
          · rw [hsort] at hsorted
            exact List.rel_of_sorted_cons (List.sorted_cons.mp hsorted).2 c h
        · rw [hfw]; rfl
    · rw [hfw]
      simp [mkWindow]
    · intro s hs
      rw [hfw] at hs
      rcases rest with _ | ⟨c1, rest2⟩
      · simp at hs
      · simp only [List.head?] at hs
        simp at hs
        rw [← hs]
        simp [mkWindow]

def c7_no_risks : RiskEscalations :=
  ⟨⟨"minimal", none, "routine", 1/2⟩,
   ⟨"unknown", none, "routine_monitoring", none, 0⟩,
   ⟨"minimal", 1/10, none, "routine_monitoring", "routine", 1/2⟩⟩

/-- Witness for C7 amended: with no actionable day estimate anywhere the
primary window is the routine 14-day check-in. -/
theorem C7_amended_witness :
    find_intervention_windows 0 c7_predictions c7_no_risks =
      ⟨routine_check_in_window 0, none⟩ :=
  (C7_amended 0 c7_predictions c7_no_risks).1 (by with_unfolding_all decide)

/-! ## C3: fewer than 2 data points gives the fixed default prediction -/

/-- C3: with fewer than 2 history entries, every horizon's prediction is
the fixed default (whose four primary dimensions are all 0.5) and the
intervention windows contain only the generic routine check-in window. -/
theorem C3_default_prediction (now : ℤ) (hist : StudentEmotionHistory)
    (hlen : hist.weeks.length < 2) :
    ((predict_emotion_evolution now hist).emotion_predictions.next_week =
        default_emotion_prediction ∧
     (predict_emotion_evolution now hist).emotion_predictions.two_week =
        default_emotion_prediction ∧
     (predict_emotion_evolution now hist).emotion_predictions.course_completion =
        default_emotion_prediction) ∧
    (default_emotion_prediction.frustration_level = 1/2 ∧
     default_emotion_prediction.engagement_level = 1/2 ∧
     default_emotion_prediction.confidence_level = 1/2 ∧
     default_emotion_prediction.satisfaction_level = 1/2) ∧
    (predict_emotion_evolution now hist).optimal_intervention_windows.primary =
      routine_check_in_window now ∧
    (predict_emotion_evolution now hist).optimal_intervention_windows.secondary = none := by
  have h3 : hist.weeks.length < 3 := by omega
  have hfr : model_frustration_curve hist = ⟨"insufficient_data", none, 0, none⟩ := by
    unfold model_frustration_curve
    rw [if_pos (by rw [List.length_map]; exact h3)]
  have hen : predict_engagement_decline hist =
      ⟨"insufficient_data", none, "unknown", 0, none⟩ := by
    unfold predict_engagement_decline
    rw [if_pos (by rw [List.length_map]; exact h3)]
  have hhd : predict_hidden_dissatisfaction hist = ⟨"insufficient_data", 0, none, 0⟩ := by
    unfold predict_hidden_dissatisfaction
    rw [if_pos h3]
  have hwin : (predict_emotion_evolution now hist).optimal_intervention_windows =
      find_intervention_windows now
        ⟨predict_next_week_emotions hist, predict_two_week_emotions hist,
         predict_end_course_emotions hist⟩
        ⟨predict_frustration_threshold (model_frustration_curve hist),
         predict_engagement_dropout (predict_engagement_decline hist),
         predict_dissatisfaction_explosion (predict_hidden_dissatisfaction hist)⟩ := rfl
  refine ⟨⟨?_, ?_, ?_⟩,
    ⟨by norm_num [default_emotion_prediction], by norm_num [default_emotion_prediction],
     by norm_num [default_emotion_prediction], by norm_num [default_emotion_prediction]⟩, ?_, ?_⟩
  · show predict_next_week_emotions hist = default_emotion_prediction
    unfold predict_next_week_emotions
    rw [if_pos hlen]
  · show predict_two_week_emotions hist = default_emotion_prediction
    unfold predict_two_week_emotions
    rw [if_pos h3]
  · show predict_end_course_emotions hist = default_emotion_prediction
    unfold predict_end_course_emotions
    rw [if_pos h3]
  · rw [hwin, hfr, hen, hhd]
    rfl
  · rw [hwin, hfr, hen, hhd]
    rfl

/-- A one-entry history used as the C3 witness input. -/
def c3_history : StudentEmotionHistory :=
  ⟨"s1", "c1", [1], [1/4], [3/4], [1/2], [1/2], ["neutral"], [false], ["low"], [1/2], [3/10]⟩

/-- Witness for C3 at a concrete one-entry history. -/
theorem C3_default_prediction_witness :
    (predict_emotion_evolution 0 c3_history).emotion_predictions.next_week =
      default_emotion_prediction ∧
    (predict_emotion_evolution 0 c3_history).optimal_intervention_windows.primary =
      routine_check_in_window 0 ∧
    (predict_emotion_evolution 0 c3_history).optimal_intervention_windows.secondary = none := by
  have h := C3_default_prediction 0 c3_history (by decide)
  exact ⟨h.1.1, h.2.2.1, h.2.2.2⟩

/-! ## C6: quadratic threshold crossing -/

/-- With a nonzero leading coefficient and an exact square root `s` of the
discriminant, the solutions of `a·y² + b·y + c = thr` are exactly the two
quadratic-formula values. -/
theorem quad_roots (a b c thr : ℚ) (ha : a ≠ 0) (s : ℚ)
    (hs : s * s = b ^ 2 - 4 * a * (c - thr)) (y : ℚ) :
    a * y ^ 2 + b * y + c = thr ↔
      (y = (-b + s) / (2 * a) ∨ y = (-b - s) / (2 * a)) := by
  have h2a : (2 : ℚ) * a ≠ 0 := mul_ne_zero two_ne_zero ha
  constructor
  · intro h
    have key : (2 * a * y + b - s) * (2 * a * y + b + s) = 0 := by
      linear_combination (4 * a) * h - hs
    rcases mul_eq_zero.mp key with h' | h'
    · left
      field_simp
      linarith
    · right
      field_simp
      linarith
  · intro h
    rcases h with h | h <;> subst h <;> field_simp <;> ring_nf <;>
      linear_combination (2 * a ^ 2) * hs

/-- The minimum of a singleton. -/
theorem minQ_singleton (x : ℚ) : minQ [x] = x := rfl

/-- The minimum of a pair. -/
theorem minQ_pair (x y : ℚ) : minQ [x, y] = min x y := rfl

/-- Specification of `quad_future_crossing` for exact-arithmetic runs
(`a ≠ 0`, exact square root of the discriminant): a returned week count is
`x - current_week` for the smallest root `x` strictly beyond
`current_week`, and `none` is returned exactly when no such root exists. -/
theorem quad_future_crossing_spec (a b c thr cur : ℚ) (ha : a ≠ 0)
    (hs : sqrtQ (b ^ 2 - 4 * a * (c - thr)) * sqrtQ (b ^ 2 - 4 * a * (c - thr)) =
      b ^ 2 - 4 * a * (c - thr)) :
    (∀ w, quad_future_crossing a b c thr cur = some w →
      ∃ x : ℚ, x > cur ∧ a * x ^ 2 + b * x + c = thr ∧ w = x - cur ∧
        ∀ y : ℚ, a * y ^ 2 + b * y + c = thr → y > cur → x ≤ y) ∧
    (quad_future_crossing a b c thr cur = none →
      ∀ y : ℚ, a * y ^ 2 + b * y + c = thr → ¬ y > cur) := by
  have hd : b ^ 2 - 4 * a * (c - thr) ≥ 0 := hs ▸ mul_self_nonneg _
  have hroots := quad_roots a b c thr ha (sqrtQ (b ^ 2 - 4 * a * (c - thr))) hs
  set x1 := (-b + sqrtQ (b ^ 2 - 4 * a * (c - thr))) / (2 * a) with hx1
  set x2 := (-b - sqrtQ (b ^ 2 - 4 * a * (c - thr))) / (2 * a) with hx2
  have hQ : quad_future_crossing a b c thr cur =
      (if ([x1, x2].filter (fun x => decide (x > cur))).isEmpty then none
       else some (minQ ([x1, x2].filter (fun x => decide (x > cur))) - cur)) := by
    unfold quad_future_crossing
    rw [if_pos hd]
  by_cases h1 : x1 > cur <;> by_cases h2 : x2 > cur
  · -- both roots in the future
    have hfil : [x1, x2].filter (fun x => decide (x > cur)) = [x1, x2] := by
      simp [List.filter, h1, h2]
    rw [hQ, hfil]
    refine ⟨?_, ?_⟩
    · intro w hw
      rw [if_neg (by simp)] at hw
      simp only [Option.some.injEq] at hw
      rw [minQ_pair] at hw
      rcases le_total x1 x2 with hle | hle
      · refine ⟨x1, h1, (hroots x1).mpr (Or.inl rfl), ?_, ?_⟩
        · rw [← hw, min_eq_left hle]
        · intro y hy _
          rcases (hroots y).mp hy with rfl | rfl
          · exact le_refl _
          · exact hle
      · refine ⟨x2, h2, (hroots x2).mpr (Or.inr rfl), ?_, ?_⟩
        · rw [← hw, min_eq_right hle]
        · intro y hy _
          rcases (hroots y).mp hy with rfl | rfl
          · exact hle
          · exact le_refl _
    · intro hnone
      rw [if_neg (by simp)] at hnone
      exact Option.noConfusion hnone
  · have hfil : [x1, x2].filter (fun x => decide (x > cur)) = [x1] := by
      simp [List.filter, h1, h2]
    rw [hQ, hfil]
    refine ⟨?_, ?_⟩
    · intro w hw
      rw [if_neg (by simp)] at hw
      simp only [Option.some.injEq] at hw
      rw [minQ_singleton] at hw
      refine ⟨x1, h1, (hroots x1).mpr (Or.inl rfl), hw.symm, ?_⟩
      intro y hy hycur
      rcases (hroots y).mp hy with rfl | rfl
      · exact le_refl _
      · exact absurd hycur h2
    · intro hnone
      rw [if_neg (by simp)] at hnone
      exact Option.noConfusion hnone
  · have hfil : [x1, x2].filter (fun x => decide (x > cur)) = [x2] := by
      simp [List.filter, h1, h2]
    rw [hQ, hfil]
    refine ⟨?_, ?_⟩
    · intro w hw
      rw [if_neg (by simp)] at hw
      simp only [Option.some.injEq] at hw
      rw [minQ_singleton] at hw
      refine ⟨x2, h2, (hroots x2).mpr (Or.inr rfl), hw.symm, ?_⟩
      intro y hy hycur
      rcases (hroots y).mp hy with rfl | rfl
      · exact absurd hycur h1
      · exact le_refl _
    · intro hnone
      rw [if_neg (by simp)] at hnone
      exact Option.noConfusion hnone
  · have hfil : [x1, x2].filter (fun x => decide (x > cur)) = [] := by
      simp [List.filter, h1, h2]
    rw [hQ, hfil]
    refine ⟨?_, ?_⟩
    · intro w hw
      rw [if_pos (by simp)] at hw
      exact Option.noConfusion hw
    · intro _ y hy hycur
      rcases (hroots y).mp hy with rfl | rfl
      · exact h1 hycur
      · exact h2 hycur

/-- Projection of `model_frustration_curve` onto the threshold date, with
the fitted coefficients and the latest week named. -/
theorem model_frustration_curve_days (hist : StudentEmotionHistory) (a b c cur : ℚ)
    (hlen : ¬ (hist.weeks.map (Int.cast : ℤ → ℚ)).length < 3)
    (habc : polyfit2 (hist.weeks.map (Int.cast : ℤ → ℚ)) hist.frustration_levels = (a, b, c))
    (hcur : maxQ (hist.weeks.map (Int.cast : ℤ → ℚ)) = cur) :
    (model_frustration_curve hist).days_to_threshold =
      (if maxQ ([cur + 1, cur + 2, cur + 3].map (fun w => clip01 (a * w ^ 2 + b * w + c))) ≥ 0.8
       then (quad_future_crossing a b c 0.8 cur).map (fun wk => intTrunc (wk * 7))
       else none) := by
  simp only [model_frustration_curve]
  rw [if_neg hlen, habc, hcur]

/-- Projection of `predict_engagement_decline` onto the disengagement
week count, with the fitted coefficients and the latest week named. -/
theorem predict_engagement_decline_weeks (hist : StudentEmotionHistory) (a b c cur : ℚ)
    (hlen : ¬ (hist.weeks.map (Int.cast : ℤ → ℚ)).length < 3)
    (habc : polyfit2 (hist.weeks.map (Int.cast : ℤ → ℚ)) hist.engagement_levels = (a, b, c))
    (hcur : maxQ (hist.weeks.map (Int.cast : ℤ → ℚ)) = cur) :
    (predict_engagement_decline hist).weeks_to_disengagement =
      (if minQ ([cur + 1, cur + 2, cur + 3].map (fun w => clip01 (a * w ^ 2 + b * w + c))) ≤ 0.3
       then
        (match quad_future_crossing a b c 0.3 cur with
         | some w => if w = 0 then none else some w
         | none => none)
       else none) := by
  simp only [predict_engagement_decline]
  rw [if_neg hlen, habc, hcur]

/-- The C6 counterexample history: weeks 1, 2, 3 with slowly rising
frustration 0.10, 0.16, 0.24. -/
def c6_history : StudentEmotionHistory :=
  ⟨"s1", "c1", [1, 2, 3], [1/10, 4/25, 6/25], [1/2, 1/2, 1/2], [1/2, 1/2, 1/2],
   [1/2, 1/2, 1/2], ["neutral", "neutral", "neutral"], [false, false, false],
   ["low", "low", "low"], [1/2, 1/2, 1/2], [3/10, 3/10, 3/10]⟩

/-- C6 counterexample: the fitted quadratic `0.01·x² + 0.03·x + 0.06` has a
real root of `p(x) = 0.8` strictly beyond the latest observed week 3
(namely `(-3 + √305)/2 ≈ 7.23`), yet the code reports no threshold date,
because the root solving is additionally gated on the three-week-ahead
predictions (0.34, 0.46, 0.60, all below 0.8). -/
theorem C6_counterexample :
    (model_frustration_curve c6_history).days_to_threshold = none ∧
    polyfit2 (c6_history.weeks.map (Int.cast : ℤ → ℚ)) c6_history.frustration_levels =
      (1/100, 3/100, 3/50) ∧
    maxQ (c6_history.weeks.map (Int.cast : ℤ → ℚ)) = 3 ∧
    (∃ x : ℝ, x > 3 ∧ (1/100 : ℝ) * x ^ 2 + (3/100) * x + 3/50 = 0.8) := by
  refine ⟨by with_unfolding_all decide, by with_unfolding_all decide,
    by with_unfolding_all decide, ?_⟩
  refine ⟨(-3 + Real.sqrt 305) / 2, ?_, ?_⟩
  · have h9 : (9 : ℝ) < Real.sqrt 305 :=
      (Real.lt_sqrt (by norm_num)).mpr (by norm_num)
    linarith
  · have hs : Real.sqrt 305 ^ 2 = 305 := Real.sq_sqrt (by norm_num)
    linear_combination hs / 400

/-- C6 amended: for histories with at least 3 entries, both computations
solve the fitted quadratic for the fixed critical constant (0.8 for
frustration, 0.3 for engagement), keep only roots strictly beyond the
latest observed week and report the smallest (frustration converted to
days `int(7·(root - latest))`, engagement kept in weeks), **but only after
a screening gate on the three-week-ahead predictions** (max predicted
frustration ≥ 0.8, resp. min predicted engagement ≤ 0.3); when the gate
fails, or no real root, or no future root exists, no threshold date is
reported.  Root clauses are stated for exact-arithmetic runs (`a ≠ 0`,
exact discriminant square root). -/
theorem C6_amended (hist : StudentEmotionHistory) (a b c a' b' c' cur : ℚ)
    (hlen : 3 ≤ hist.weeks.length)
    (habc : polyfit2 (hist.weeks.map (Int.cast : ℤ → ℚ)) hist.frustration_levels = (a, b, c))
    (habc' : polyfit2 (hist.weeks.map (Int.cast : ℤ → ℚ)) hist.engagement_levels = (a', b', c'))
    (hcur : maxQ (hist.weeks.map (Int.cast : ℤ → ℚ)) = cur)
    (ha : a ≠ 0) (ha' : a' ≠ 0)
    (hs : sqrtQ (b ^ 2 - 4 * a * (c - 0.8)) * sqrtQ (b ^ 2 - 4 * a * (c - 0.8)) =
      b ^ 2 - 4 * a * (c - 0.8))
    (hs' : sqrtQ (b' ^ 2 - 4 * a' * (c' - 0.3)) * sqrtQ (b' ^ 2 - 4 * a' * (c' - 0.3)) =
      b' ^ 2 - 4 * a' * (c' - 0.3)) :
    (¬ maxQ ([cur + 1, cur + 2, cur + 3].map (fun w => clip01 (a * w ^ 2 + b * w + c))) ≥ 0.8 →
      (model_frustration_curve hist).days_to_threshold = none) ∧
    (∀ d, (model_frustration_curve hist).days_to_threshold = some d →
      ∃ x : ℚ, x > cur ∧ a * x ^ 2 + b * x + c = 0.8 ∧ d = intTrunc ((x - cur) * 7) ∧
        ∀ y : ℚ, a * y ^ 2 + b * y + c = 0.8 → y > cur → x ≤ y) ∧
    ((model_frustration_curve hist).days_to_threshold = none →
      ¬ maxQ ([cur + 1, cur + 2, cur + 3].map (fun w => clip01 (a * w ^ 2 + b * w + c))) ≥ 0.8 ∨
        ∀ y : ℚ, a * y ^ 2 + b * y + c = 0.8 → ¬ y > cur) ∧
    (¬ minQ ([cur + 1, cur + 2, cur + 3].map (fun w => clip01 (a' * w ^ 2 + b' * w + c'))) ≤ 0.3 →
      (predict_engagement_decline hist).weeks_to_disengagement = none) ∧
    (∀ w, (predict_engagement_decline hist).weeks_to_disengagement = some w →
      ∃ x : ℚ, x > cur ∧ a' * x ^ 2 + b' * x + c' = 0.3 ∧ w = x - cur ∧
        ∀ y : ℚ, a' * y ^ 2 + b' * y + c' = 0.3 → y > cur → x ≤ y) ∧
    ((predict_engagement_decline hist).weeks_to_disengagement = none →
      ¬ minQ ([cur + 1, cur + 2, cur + 3].map (fun w => clip01 (a' * w ^ 2 + b' * w + c'))) ≤ 0.3 ∨
        ∀ y : ℚ, a' * y ^ 2 + b' * y + c' = 0.3 → ¬ y > cur) := by
  have hlen' : ¬ (hist.weeks.map (Int.cast : ℤ → ℚ)).length < 3 := by
    rw [List.length_map]; omega
  have hdays := model_frustration_curve_days hist a b c cur hlen' habc hcur
  have hweeks := predict_engagement_decline_weeks hist a' b' c' cur hlen' habc' hcur
  obtain ⟨hsome, hnone⟩ := quad_future_crossing_spec a b c 0.8 cur ha hs
  obtain ⟨hsome', hnone'⟩ := quad_future_crossing_spec a' b' c' 0.3 cur ha' hs'
  refine ⟨?_, ?_, ?_, ?_, ?_, ?_⟩
  · intro hg
    rw [hdays, if_neg hg]
  · intro d hd
    rw [hdays] at hd
    by_cases hg : maxQ ([cur + 1, cur + 2, cur + 3].map
        (fun w => clip01 (a * w ^ 2 + b * w + c))) ≥ 0.8
    · rw [if_pos hg] at hd
      obtain ⟨w, hw, hwd⟩ := Option.map_eq_some'.mp hd
      obtain ⟨x, hx1, hx2, hx3, hx4⟩ := hsome w hw
      exact ⟨x, hx1, hx2, by rw [← hwd, hx3], hx4⟩
    · rw [if_neg hg] at hd
      exact Option.noConfusion hd
  · intro hd
    by_cases hg : maxQ ([cur + 1, cur + 2, cur + 3].map
        (fun w => clip01 (a * w ^ 2 + b * w + c))) ≥ 0.8
    · right
      rw [hdays, if_pos hg] at hd
      exact hnone (Option.map_eq_none'.mp hd)
    · left
      exact hg
  · intro hg
    rw [hweeks, if_neg hg]
  · intro w0 hd
    rw [hweeks] at hd
    by_cases hg : minQ ([cur + 1, cur + 2, cur + 3].map
        (fun w => clip01 (a' * w ^ 2 + b' * w + c'))) ≤ 0.3
    · rw [if_pos hg] at hd
      cases hq : quad_future_crossing a' b' c' 0.3 cur with
      | none => rw [hq] at hd; exact Option.noConfusion hd
      | some w1 =>
        rw [hq] at hd
        dsimp only at hd
        by_cases hw1 : w1 = 0
        · rw [if_pos hw1] at hd
          exact Option.noConfusion hd
        · rw [if_neg hw1] at hd
          obtain ⟨x, hx1, hx2, hx3, hx4⟩ := hsome' w1 hq
          exact ⟨x, hx1, hx2, by rw [← Option.some.inj hd, hx3], hx4⟩
    · rw [if_neg hg] at hd
      exact Option.noConfusion hd
  · intro hd
    by_cases hg : minQ ([cur + 1, cur + 2, cur + 3].map
        (fun w => clip01 (a' * w ^ 2 + b' * w + c'))) ≤ 0.3
    · right
      rw [hweeks, if_pos hg] at hd
      cases hq : quad_future_crossing a' b' c' 0.3 cur with
      | none => exact hnone' hq
      | some w1 =>
        rw [hq] at hd
        dsimp only at hd
        by_cases hw1 : w1 = 0
        · obtain ⟨x, hx1, _, hx3, _⟩ := hsome' w1 hq
          exfalso
          rw [hw1] at hx3
          have : x = cur := by linarith [hx3]
          rw [this] at hx1
          exact lt_irrefl cur hx1
        · rw [if_neg hw1] at hd
          exact Option.noConfusion hd
    · left
      exact hg

/-- The C6 witness history: frustration fits `0.1·x² - 0.4·x + 0.8` (root
of 0.8 at week 4, days 7), engagement fits `-0.1·x² + 0.4·x + 0.3` (root
of 0.3 at week 4, 1 week ahead). -/
def c6b_history : StudentEmotionHistory :=
  ⟨"s2", "c2", [1, 2, 3], [1/2, 2/5, 1/2], [3/5, 7/10, 3/5], [1/2, 1/2, 1/2],
   [1/2, 1/2, 1/2], ["neutral", "neutral", "neutral"], [false, false, false],
   ["low", "low", "low"], [1/2, 1/2, 1/2], [3/10, 3/10, 3/10]⟩

/-- Witness for C6 amended at a 3-week history whose fitted curves do
cross their critical constants one week ahead. -/
theorem C6_amended_witness :
    (∃ x : ℚ, x > 3 ∧ (1/10) * x ^ 2 + (-2/5) * x + 4/5 = 0.8 ∧
      (7 : ℤ) = intTrunc ((x - 3) * 7) ∧
      ∀ y : ℚ, (1/10) * y ^ 2 + (-2/5) * y + 4/5 = 0.8 → y > 3 → x ≤ y) ∧
    (∃ x : ℚ, x > 3 ∧ (-1/10) * x ^ 2 + (2/5) * x + 3/10 = 0.3 ∧
      (1 : ℚ) = x - 3 ∧
      ∀ y : ℚ, (-1/10) * y ^ 2 + (2/5) * y + 3/10 = 0.3 → y > 3 → x ≤ y) := by
  have h := C6_amended c6b_history (1/10) (-2/5) (4/5) (-1/10) (2/5) (3/10) 3
    (by decide) (by with_unfolding_all decide) (by with_unfolding_all decide)
    (by with_unfolding_all decide) (by with_unfolding_all decide)
    (by with_unfolding_all decide) (by with_unfolding_all decide)
    (by with_unfolding_all decide)
  exact ⟨h.2.1 7 (by with_unfolding_all decide),
    h.2.2.2.2.1 1 (by with_unfolding_all decide)⟩

/-! ## C1: every float field in [0,1], every categorical field in its enumeration -/

/-- The explicit-statement override `max s 0.8` keeps the score in [0,1]. -/
theorem step_max_bounds (s : ℚ) (b : Bool) (h : 0 ≤ s ∧ s ≤ 1) :
    0 ≤ (if b then max s 0.8 else s) ∧ (if b then max s 0.8 else s) ≤ 1 := by
  cases b
  · rw [if_neg Bool.false_ne_true]
    exact h
  · rw [if_pos rfl]
    exact ⟨le_trans h.1 (le_max_left _ _), max_le h.2 (by norm_num)⟩

/-- The explicit-statement override `min s 0.2` keeps the score in [0,1]. -/
theorem step_min_bounds (s : ℚ) (b : Bool) (h : 0 ≤ s ∧ s ≤ 1) :
    0 ≤ (if b then min s 0.2 else s) ∧ (if b then min s 0.2 else s) ≤ 1 := by
  cases b
  · rw [if_neg Bool.false_ne_true]
    exact h
  · rw [if_pos rfl]
    exact ⟨le_min h.1 (by norm_num), le_trans (min_le_left _ _) h.2⟩

/-- The weighted indicator mean stays in [0,1]. -/
theorem weighted_mean_bounds (hc mc lc : ℕ) :
    0 ≤ (if ((hc : ℚ) + mc + lc) > 0 then
        ((hc : ℚ) * 0.9 + (mc : ℚ) * 0.5 + (lc : ℚ) * 0.1) / ((hc : ℚ) + mc + lc)
      else (0.5 : ℚ)) ∧
      (if ((hc : ℚ) + mc + lc) > 0 then
        ((hc : ℚ) * 0.9 + (mc : ℚ) * 0.5 + (lc : ℚ) * 0.1) / ((hc : ℚ) + mc + lc)
      else (0.5 : ℚ)) ≤ 1 := by
  have hh : (0 : ℚ) ≤ (hc : ℚ) := Nat.cast_nonneg _
  have hm : (0 : ℚ) ≤ (mc : ℚ) := Nat.cast_nonneg _
  have hl : (0 : ℚ) ≤ (lc : ℚ) := Nat.cast_nonneg _
  split_ifs with hp
  · constructor
    · positivity
    · rw [div_le_one hp]
      nlinarith
  · norm_num

/-- `_detect_frustration_level` stays in [0,1]. -/
theorem detect_frustration_level_bounds (t : String) :
    0 ≤ detect_frustration_level t ∧ detect_frustration_level t ≤ 1 := by
  unfold detect_frustration_level
  dsimp only
  split_ifs
  · constructor
    · exact le_trans (le_min (by positivity) zero_le_one) (le_max_left _ _)
    · exact max_le (min_le_right _ _) (by norm_num)
  · exact ⟨le_min (by positivity) zero_le_one, min_le_right _ _⟩

/-- `_detect_engagement_level` stays in [0,1]. -/
theorem detect_engagement_level_bounds (t : String) :
    0 ≤ detect_engagement_level t ∧ detect_engagement_level t ≤ 1 :=
  step_min_bounds _ (reSearch explicit_hate_patterns t)
    (step_max_bounds _ (reSearch explicit_love_patterns t)
      (weighted_mean_bounds (countHits engagement_indicators_high t)
        (countHits engagement_indicators_medium t) (countHits engagement_indicators_low t)))

/-- `_detect_confidence_level` stays in [0,1]. -/
theorem detect_confidence_level_bounds (t : String) :
    0 ≤ detect_confidence_level t ∧ detect_confidence_level t ≤ 1 :=
  step_min_bounds _ (reSearch explicit_confused_patterns t)
    (step_max_bounds _ (reSearch explicit_confident_patterns t)
      (weighted_mean_bounds (countHits confidence_indicators_high t)
        (countHits confidence_indicators_medium t) (countHits confidence_indicators_low t)))

/-- The text part of the satisfaction score stays in [0,1]. -/
theorem text_satisfaction_bounds (pc nc : ℕ) :
    0 ≤ (if ((pc : ℚ) + (nc : ℚ)) > 0 then (pc : ℚ) / ((pc : ℚ) + (nc : ℚ)) else (0.5 : ℚ)) ∧
      (if ((pc : ℚ) + (nc : ℚ)) > 0 then (pc : ℚ) / ((pc : ℚ) + (nc : ℚ)) else (0.5 : ℚ)) ≤ 1 := by
  have hp : (0 : ℚ) ≤ (pc : ℚ) := Nat.cast_nonneg _
  have hn : (0 : ℚ) ≤ (nc : ℚ) := Nat.cast_nonneg _
  split_ifs with h
  · constructor
    · positivity
    · rw [div_le_one h]
      linarith
  · norm_num

/-- Values all in 1..5 bound the sum between `len` and `5·len`. -/
theorem aspect_sum_bounds (l : List (String × ℤ)) (h : ∀ p ∈ l, (1 : ℤ) ≤ p.2 ∧ p.2 ≤ 5) :
    (l.length : ℤ) ≤ (l.map (fun q => q.2)).sum ∧ (l.map (fun q => q.2)).sum ≤ 5 * l.length := by
  induction l with
  | nil => simp
  | cons p rest ih =>
    obtain ⟨h1, h2⟩ := h p (List.mem_cons_self _ _)
    obtain ⟨h3, h4⟩ := ih (fun q hq => h q (List.mem_cons_of_mem _ hq))
    simp only [List.map_cons, List.sum_cons, List.length_cons]
    constructor <;> push_cast <;> linarith

/-- The 0.6/0.4 text-aspect blend stays in [0,1]. -/
theorem blend_bounds (ts avg : ℚ) (h0 : 0 ≤ ts) (h1 : ts ≤ 1) (h2 : 1 ≤ avg) (h3 : avg ≤ 5) :
    0 ≤ ts * 0.6 + (avg - 1) / 4 * 0.4 ∧ ts * 0.6 + (avg - 1) / 4 * 0.4 ≤ 1 := by
  constructor <;> nlinarith

/-- `_calculate_satisfaction_level` stays in [0,1] when every supplied
aspect value is in 1..5. -/
theorem calculate_satisfaction_level_bounds (t : String)
    (scores : Option (List (String × ℤ)))
    (hval : ∀ l, scores = some l → ∀ p ∈ l, (1 : ℤ) ≤ p.2 ∧ p.2 ≤ 5) :
    0 ≤ calculate_satisfaction_level t scores ∧ calculate_satisfaction_level t scores ≤ 1 := by
  obtain ⟨ht0, ht1⟩ :=
    text_satisfaction_bounds (countHits positive_indicators t) (countHits negative_indicators t)
  unfold calculate_satisfaction_level
  rcases scores with _ | (_ | ⟨p, rest⟩)
  · exact ⟨ht0, ht1⟩
  · exact ⟨ht0, ht1⟩
  · obtain ⟨hs1, hs2⟩ := aspect_sum_bounds (p :: rest) (hval (p :: rest) rfl)
    have hlpos : (0 : ℚ) < ((p :: rest).length : ℚ) := by
      rw [List.length_cons]
      positivity
    have havg1 : 1 ≤ ((((p :: rest).map (fun q => q.2)).sum : ℤ) : ℚ) /
        ((p :: rest).length : ℚ) := by
      rw [le_div_iff₀ hlpos, one_mul]
      exact_mod_cast hs1
    have havg5 : ((((p :: rest).map (fun q => q.2)).sum : ℤ) : ℚ) /
        ((p :: rest).length : ℚ) ≤ 5 := by
      rw [div_le_iff₀ hlpos]
      exact_mod_cast hs2
    exact blend_bounds _ _ ht0 ht1 havg1 havg5

/-- `_calculate_emotional_temperature` stays in [0,1]. -/
theorem calculate_emotional_temperature_bounds (t : String) :
    0 ≤ calculate_emotional_temperature t ∧ calculate_emotional_temperature t ≤ 1 := by
  unfold calculate_emotional_temperature
  dsimp only
  refine ⟨le_min (add_nonneg (add_nonneg
    (le_min (le_max_right _ _) zero_le_one)
    (le_min (by positivity) (by norm_num)))
    (le_min (by positivity) (by norm_num))) zero_le_one, min_le_right _ _⟩

/-- `_calculate_emotional_volatility` stays in [0,1]. -/
theorem calculate_emotional_volatility_bounds (hd : Option (List HistEntry)) :
    0 ≤ calculate_emotional_volatility hd ∧ calculate_emotional_volatility hd ≤ 1 := by
  unfold calculate_emotional_volatility
  rcases hd with _ | l
  · norm_num
  · dsimp only
    split_ifs
    · norm_num
    · norm_num
    · constructor
      · refine le_min (mul_nonneg (div_nonneg (List.sum_nonneg ?_) (Nat.cast_nonneg _))
          (by norm_num)) zero_le_one
        intro x hx
        simp only [List.mem_flatten, List.mem_map] at hx
        obtain ⟨sub, ⟨pr, _, rfl⟩, hxsub⟩ := hx
        simp only [List.mem_cons, List.not_mem_nil, or_false] at hxsub
        rcases hxsub with rfl | rfl | rfl <;> exact abs_nonneg _
      · exact min_le_right _ _

/-- The hidden-dissatisfaction confidence stays in [0,1]. -/
theorem analyze_hidden_dissatisfaction_confidence_bounds (t : String) (sat : ℚ) :
    0 ≤ (analyze_hidden_dissatisfaction t sat).2.1 ∧
      (analyze_hidden_dissatisfaction t sat).2.1 ≤ 1 := by
  unfold analyze_hidden_dissatisfaction
  dsimp only
  exact ⟨le_max_right _ _, max_le (min_le_right _ _) zero_le_one⟩

/-- `_calculate_politeness_mask` stays in [0,1]. -/
theorem calculate_politeness_mask_bounds (t : String) (hid : Bool) :
    0 ≤ calculate_politeness_mask t hid ∧ calculate_politeness_mask t hid ≤ 1 := by
  unfold calculate_politeness_mask
  dsimp only
  have hbase : (0 : ℚ) ≤ min ((countIn polite_phrases t : ℚ) * 0.2) 0.8 :=
    le_min (by positivity) (by norm_num)
  split_ifs
  · norm_num
  all_goals exact ⟨le_min (by linarith) zero_le_one, min_le_right _ _⟩

/-- `_calculate_emotion_coherence` stays in [0,1] when the four inputs do. -/
theorem calculate_emotion_coherence_bounds (f e c s : ℚ)
    (hf : 0 ≤ f ∧ f ≤ 1) (he : 0 ≤ e ∧ e ≤ 1) (hc : 0 ≤ c ∧ c ≤ 1) (hs : 0 ≤ s ∧ s ≤ 1) :
    0 ≤ calculate_emotion_coherence f e c s ∧ calculate_emotion_coherence f e c s ≤ 1 := by
  unfold calculate_emotion_coherence
  have h1 : |(1 - s) - f| ≤ 1 := abs_le.mpr ⟨by linarith [hf.1, hs.2], by linarith [hf.2, hs.1]⟩
  have h2 : |e - c| ≤ 1 := abs_le.mpr ⟨by linarith [he.1, hc.2], by linarith [he.2, hc.1]⟩
  have h3 : 0 ≤ |(1 - s) - f| := abs_nonneg _
  have h4 : 0 ≤ |e - c| := abs_nonneg _
  constructor <;> nlinarith

/-- `_calculate_sentiment_authenticity` stays in [0,1]. -/
theorem calculate_sentiment_authenticity_bounds (t : String) (hid : Bool) :
    0 ≤ calculate_sentiment_authenticity t hid ∧ calculate_sentiment_authenticity t hid ≤ 1 := by
  unfold calculate_sentiment_authenticity
  dsimp only
  exact ⟨le_max_right _ _, max_le (min_le_right _ _) zero_le_one⟩

/-- `max(matches, key=matches.get)` picks one of the given names. -/
theorem firstMax_fst_mem (hd : String × ℕ) (tl : List (String × ℕ)) :
    (firstMax hd tl).1 = hd.1 ∨ (firstMax hd tl).1 ∈ tl.map Prod.fst := by
  induction tl generalizing hd with
  | nil => exact Or.inl rfl
  | cons q rest ih =>
    have hstep : firstMax hd (q :: rest) = firstMax (if q.2 > hd.2 then q else hd) rest := rfl
    rw [hstep, List.map_cons]
    rcases ih (if q.2 > hd.2 then q else hd) with h | h
    · rw [h]
      split_ifs
      · exact Or.inr (List.mem_cons_self _ _)
      · exact Or.inl rfl
    · exact Or.inr (List.mem_cons_of_mem _ h)

/-- `_determine_frustration_type` returns a member of its enumeration. -/
theorem determine_frustration_type_mem (t : String) :
    determine_frustration_type t ∈ ["technical", "content", "support", "pace", "mixed"] := by
  unfold determine_frustration_type
  dsimp only
  split_ifs
  · simp
  · simp
  · rcases firstMax_fst_mem ("technical", countHits frustration_words_technical t)
        [("content", countHits frustration_words_content t),
         ("support", countHits frustration_words_support t),
         ("pace", countHits frustration_words_pace t)] with h | h
    · rw [h]
      simp
    · simp only [List.map_cons, List.map_nil, List.mem_cons, List.not_mem_nil, or_false] at h
      rcases h with h | h | h <;> rw [h] <;> simp
  · simp

/-- `_determine_frustration_intensity` returns a member of its enumeration. -/
theorem determine_frustration_intensity_mem (x : ℚ) :
    determine_frustration_intensity x ∈ ["mild", "moderate", "severe", "critical"] := by
  unfold determine_frustration_intensity
  split_ifs <;> simp

/-- `_determine_frustration_trend` returns a member of its enumeration. -/
theorem determine_frustration_trend_mem (hd : Option (List HistEntry)) :
    determine_frustration_trend hd ∈ ["increasing", "decreasing", "stable", "spiking"] := by
  unfold determine_frustration_trend
  rcases hd with _ | l
  · simp
  · dsimp only
    split_ifs <;> simp

/-- `_detect_urgency` returns a member of its enumeration. -/
theorem detect_urgency_mem (t : String) :
    detect_urgency t ∈ ["immediate", "critical", "high", "medium", "low"] := by
  unfold detect_urgency
  split_ifs <;> simp

/-- `_determine_response_urgency` returns a member of its enumeration. -/
theorem determine_response_urgency_mem (u : String) (f : ℚ) :
    determine_response_urgency u f ∈ ["within_hour", "same_day", "within_week", "routine"] := by
  unfold determine_response_urgency
  dsimp only
  split_ifs <;> simp_all

/-- `_determine_emotional_trajectory` returns a member of its enumeration. -/
theorem determine_emotional_trajectory_mem (hd : Option (List HistEntry)) :
    determine_emotional_trajectory hd ∈ ["improving", "declining", "neutral", "fluctuating"] := by
  unfold determine_emotional_trajectory
  rcases hd with _ | l
  · simp
  · dsimp only
    split_ifs <;> simp

/-- `_determine_emotional_complexity` returns a member of its enumeration. -/
theorem determine_emotional_complexity_mem (t : String) :
    determine_emotional_complexity t ∈ ["simple", "mixed", "complex", "conflicted"] := by
  unfold determine_emotional_complexity
  dsimp only
  split_ifs <;> simp

/-- C1: for every text, every optional aspect map with values in 1..5 and
every optional history, all ten float fields of the returned profile lie
in [0,1] and all seven categorical fields belong to their fixed
enumerations. -/
theorem C1_profile_invariants (text : String) (aspect_scores : Option (List (String × ℤ)))
    (historical_data : Option (List HistEntry))
    (hval : ∀ l, aspect_scores = some l → ∀ p ∈ l, (1 : ℤ) ≤ p.2 ∧ p.2 ≤ 5) :
    (0 ≤ (analyze_text text aspect_scores historical_data).frustration_level ∧
      (analyze_text text aspect_scores historical_data).frustration_level ≤ 1) ∧
    (0 ≤ (analyze_text text aspect_scores historical_data).engagement_level ∧
      (analyze_text text aspect_scores historical_data).engagement_level ≤ 1) ∧
    (0 ≤ (analyze_text text aspect_scores historical_data).confidence_level ∧
      (analyze_text text aspect_scores historical_data).confidence_level ≤ 1) ∧
    (0 ≤ (analyze_text text aspect_scores historical_data).satisfaction_level ∧
      (analyze_text text aspect_scores historical_data).satisfaction_level ≤ 1) ∧
    (0 ≤ (analyze_text text aspect_scores historical_data).emotional_temperature ∧
      (analyze_text text aspect_scores historical_data).emotional_temperature ≤ 1) ∧
    (0 ≤ (analyze_text text aspect_scores historical_data).emotional_volatility ∧
      (analyze_text text aspect_scores historical_data).emotional_volatility ≤ 1) ∧
    (0 ≤ (analyze_text text aspect_scores historical_data).hidden_dissatisfaction_confidence ∧
      (analyze_text text aspect_scores historical_data).hidden_dissatisfaction_confidence ≤ 1) ∧
    (0 ≤ (analyze_text text aspect_scores historical_data).politeness_mask_level ∧
      (analyze_text text aspect_scores historical_data).politeness_mask_level ≤ 1) ∧
    (0 ≤ (analyze_text text aspect_scores historical_data).emotion_coherence ∧
      (analyze_text text aspect_scores historical_data).emotion_coherence ≤ 1) ∧
    (0 ≤ (analyze_text text aspect_scores historical_data).sentiment_authenticity ∧
      (analyze_text text aspect_scores historical_data).sentiment_authenticity ≤ 1) ∧
    (analyze_text text aspect_scores historical_data).frustration_type ∈
      ["technical", "content", "support", "pace", "mixed"] ∧
    (analyze_text text aspect_scores historical_data).frustration_intensity ∈
      ["mild", "moderate", "severe", "critical"] ∧
    (analyze_text text aspect_scores historical_data).frustration_trend ∈
      ["increasing", "decreasing", "stable", "spiking"] ∧
    (analyze_text text aspect_scores historical_data).urgency_level ∈
      ["immediate", "critical", "high", "medium", "low"] ∧
    (analyze_text text aspect_scores historical_data).response_urgency ∈
      ["within_hour", "same_day", "within_week", "routine"] ∧
    (analyze_text text aspect_scores historical_data).emotional_trajectory ∈
      ["improving", "declining", "neutral", "fluctuating"] ∧
    (analyze_text text aspect_scores historical_data).emotional_complexity ∈
      ["simple", "mixed", "complex", "conflicted"] := by
  refine ⟨detect_frustration_level_bounds text, detect_engagement_level_bounds text,
    detect_confidence_level_bounds text,
    calculate_satisfaction_level_bounds text aspect_scores hval,
    calculate_emotional_temperature_bounds text,
    calculate_emotional_volatility_bounds historical_data,
    analyze_hidden_dissatisfaction_confidence_bounds text _,
    calculate_politeness_mask_bounds text _,
    calculate_emotion_coherence_bounds _ _ _ _ (detect_frustration_level_bounds text)
      (detect_engagement_level_bounds text) (detect_confidence_level_bounds text)
      (calculate_satisfaction_level_bounds text aspect_scores hval),
    calculate_sentiment_authenticity_bounds text _,
    determine_frustration_type_mem text,
    determine_frustration_intensity_mem _,
    determine_frustration_trend_mem historical_data,
    detect_urgency_mem text,
    determine_response_urgency_mem _ _,
    determine_emotional_trajectory_mem historical_data,
    determine_emotional_complexity_mem text⟩

/-- Witness for C1: the satisfaction bound at a concrete text and aspect
map. -/
theorem C1_profile_invariants_witness :
    0 ≤ (analyze_text "The course is good" (some [("content", 4)]) none).satisfaction_level ∧
      (analyze_text "The course is good" (some [("content", 4)]) none).satisfaction_level ≤ 1 := by
  have h := C1_profile_invariants "The course is good" (some [("content", 4)]) none
    (by
      intro l hl
      obtain rfl := Option.some.inj hl
      decide)
  exact h.2.2.2.1

/-! ## C5: empty / whitespace-only text -/

/-- Python `str.isspace` characters (ASCII range). -/
def isWsChar (c : Char) : Bool :=
  c == ' ' || c == '\t' || c == '\n' || c == '\r' || c == '\x0b' || c == '\x0c'

theorem isPrefixChars_mem {pat l : List Char} (h : isPrefixChars pat l = true) :
    ∀ c ∈ pat, c ∈ l := by
  induction pat generalizing l with
  | nil =>
    intro c hc
    exact absurd hc (List.not_mem_nil c)
  | cons a as ih =>
    rcases l with _ | ⟨b, bs⟩
    · simp [isPrefixChars] at h
    · simp only [isPrefixChars, Bool.and_eq_true, beq_iff_eq] at h
      obtain ⟨rfl, h2⟩ := h
      intro c hc
      rcases List.mem_cons.mp hc with rfl | hc2
      · exact List.mem_cons_self _ _
      · exact List.mem_cons_of_mem _ (ih h2 c hc2)

theorem containsChars_mem {pat t : List Char} (h : containsChars pat t = true) :
    ∀ c ∈ pat, c ∈ t := by
  induction t with
  | nil => exact isPrefixChars_mem h
  | cons b bs ih =>
    simp only [containsChars, Bool.or_eq_true] at h
    rcases h with h | h
    · exact isPrefixChars_mem h
    · intro c hc
      exact List.mem_cons_of_mem _ (ih h c hc)

theorem seqScan_mem {as bs : List String} {t : List Char} (h : seqScan as bs t = true) :
    ∃ a ∈ as, ∀ c ∈ a.data, c ∈ t := by
  induction t with
  | nil => simp [seqScan] at h
  | cons x xs ih =>
    simp only [seqScan, Bool.or_eq_true, List.any_eq_true, Bool.and_eq_true] at h
    rcases h with ⟨a, ha, hpre, _⟩ | h
    · exact ⟨a, ha, fun c hc => isPrefixChars_mem hpre c hc⟩
    · obtain ⟨a, ha, hmem⟩ := ih h
      exact ⟨a, ha, fun c hc => List.mem_cons_of_mem _ (hmem c hc)⟩

theorem isWsChar_toLower {c : Char} (h : isWsChar c = true) : Char.toLower c = c := by
  simp only [isWsChar, Bool.or_eq_true, beq_iff_eq] at h
  rcases h with ((((rfl | rfl) | rfl) | rfl) | rfl) | rfl <;> decide

theorem lcChars_wsOnly {t : String} (ht : ∀ c ∈ t.data, isWsChar c = true) :
    ∀ c ∈ lcChars t, isWsChar c = true := by
  intro c hc
  simp only [lcChars, List.mem_map] at hc
  obtain ⟨c0, hc0, rfl⟩ := hc
  rw [isWsChar_toLower (ht c0 hc0)]
  exact ht c0 hc0

/-- A pattern containing a non-whitespace character never occurs in a
whitespace-only text. -/
theorem inLower_ws_false {p t : String}
    (hp : p.data.any (fun c => !isWsChar c) = true)
    (ht : ∀ c ∈ t.data, isWsChar c = true) : inLower p t = false := by
  by_contra h
  rw [Bool.not_eq_false] at h
  obtain ⟨c0, hc0, hcw⟩ := List.any_eq_true.mp hp
  have hws := lcChars_wsOnly ht c0 (containsChars_mem h c0 hc0)
  rw [hws] at hcw
  simp at hcw

theorem wordIn_ws_false {w t : String}
    (hp : (lcChars w).any (fun c => !isWsChar c) = true)
    (ht : ∀ c ∈ t.data, isWsChar c = true) : wordIn w t = false := by
  by_contra h
  rw [Bool.not_eq_false] at h
  obtain ⟨c0, hc0, hcw⟩ := List.any_eq_true.mp hp
  have hws := lcChars_wsOnly ht c0 (containsChars_mem h c0 hc0)
  rw [hws] at hcw
  simp at hcw

theorem anyInLower_ws_false {alts : List String} {t : String}
    (hp : alts.all (fun p => p.data.any (fun c => !isWsChar c)) = true)
    (ht : ∀ c ∈ t.data, isWsChar c = true) :
    alts.any (fun a => inLower a t) = false := by
  rw [List.any_eq_false]
  intro p hpmem hcontra
  rw [inLower_ws_false (List.all_eq_true.mp hp p hpmem) ht] at hcontra
  exact Bool.false_ne_true hcontra

theorem reSearch_ws_false {alts : List String} {t : String}
    (hp : alts.all (fun p => p.data.any (fun c => !isWsChar c)) = true)
    (ht : ∀ c ∈ t.data, isWsChar c = true) : reSearch alts t = false :=
  anyInLower_ws_false hp ht

theorem reSeq_ws_false {as bs : List String} {t : String}
    (hp : as.all (fun a => a.data.any (fun c => !isWsChar c)) = true)
    (ht : ∀ c ∈ t.data, isWsChar c = true) : reSeq as bs t = false := by
  by_contra h
  rw [Bool.not_eq_false] at h
  obtain ⟨a, ha, hmem⟩ := seqScan_mem h
  obtain ⟨c0, hc0, hcw⟩ := List.any_eq_true.mp (List.all_eq_true.mp hp a ha)
  have hws := lcChars_wsOnly ht c0 (hmem c0 hc0)
  rw [hws] at hcw
  simp at hcw

theorem countHits_ws_zero {ws : List String} {t : String}
    (hp : ws.all (fun w => (lcChars w).any (fun c => !isWsChar c)) = true)
    (ht : ∀ c ∈ t.data, isWsChar c = true) : countHits ws t = 0 := by
  unfold countHits
  rw [List.length_eq_zero, List.filter_eq_nil_iff]
  intro a ha hcontra
  rw [wordIn_ws_false (List.all_eq_true.mp hp a ha) ht] at hcontra
  exact Bool.false_ne_true hcontra

theorem filter_inLower_ws_nil {ws : List String} {t : String}
    (hp : ws.all (fun p => p.data.any (fun c => !isWsChar c)) = true)
    (ht : ∀ c ∈ t.data, isWsChar c = true) :
    ws.filter (fun w => inLower w t) = [] := by
  rw [List.filter_eq_nil_iff]
  intro a ha hcontra
  rw [inLower_ws_false (List.all_eq_true.mp hp a ha) ht] at hcontra
  exact Bool.false_ne_true hcontra

/-- The phrase-table fold of `_detect_dropout_risk_emotions` /
`_detect_positive_recovery_indicators` adds nothing on a whitespace-only
text. -/
theorem phrase_fold_ws {table : List (String × List String)} {t : String}
    (hp : table.all (fun p => p.2.all (fun q => q.data.any (fun c => !isWsChar c))) = true)
    (ht : ∀ c ∈ t.data, isWsChar c = true) :
    ∀ init : List String,
      table.foldl (fun acc p => if reSearch p.2 t ∧ p.1 ∉ acc then acc ++ [p.1] else acc)
        init = init := by
  induction table with
  | nil => intro init; rfl
  | cons q rest ih =>
    intro init
    simp only [List.all_cons, Bool.and_eq_true] at hp
    rw [List.foldl_cons, if_neg]
    · exact ih hp.2 init
    · rw [reSearch_ws_false hp.1 ht]
      simp

/-- C5: `analyze_text` on empty or whitespace-only text.  `frustration_level`
is 0.0 (NOT 0.5: `_detect_frustration_level` has no neutral default), the
other three primary levels are 0.5, all list fields are empty, categorical
fields are neutral, and the hidden-dissatisfaction flag is false. -/
theorem C5_amended (t : String) (ht : ∀ c ∈ t.data, isWsChar c = true) :
    (analyze_text t none none).frustration_level = 0 ∧
    (analyze_text t none none).engagement_level = 1/2 ∧
    (analyze_text t none none).confidence_level = 1/2 ∧
    (analyze_text t none none).satisfaction_level = 1/2 ∧
    (analyze_text t none none).urgency_signals = [] ∧
    (analyze_text t none none).hidden_signals = [] ∧
    (analyze_text t none none).dropout_risk_emotions = [] ∧
    (analyze_text t none none).positive_recovery_indicators = [] ∧
    (analyze_text t none none).emotional_triggers = [] ∧
    (analyze_text t none none).frustration_type = "mixed" ∧
    (analyze_text t none none).frustration_intensity = "mild" ∧
    (analyze_text t none none).frustration_trend = "stable" ∧
    (analyze_text t none none).urgency_level = "low" ∧
    (analyze_text t none none).response_urgency = "routine" ∧
    (analyze_text t none none).emotional_trajectory = "neutral" ∧
    (analyze_text t none none).emotional_complexity = "simple" ∧
    (analyze_text t none none).hidden_dissatisfaction_flag = false := by
  -- atomic facts: every lexicon count / regex match is 0 / false on t
  have hcAll : countHits all_frustration_words t = 0 := countHits_ws_zero (by decide) ht
  have hcStr : countHits strong_indicators t = 0 := countHits_ws_zero (by decide) ht
  have hreExp : reSearch explicit_frustration_patterns t = false :=
    reSearch_ws_false (by decide) ht
  have hfr : detect_frustration_level t = 0 := by
    simp only [detect_frustration_level, hcAll, hcStr, hreExp]
    with_unfolding_all decide
  have hEh : countHits engagement_indicators_high t = 0 := countHits_ws_zero (by decide) ht
  have hEm : countHits engagement_indicators_medium t = 0 := countHits_ws_zero (by decide) ht
  have hEl : countHits engagement_indicators_low t = 0 := countHits_ws_zero (by decide) ht
  have hlove : reSearch explicit_love_patterns t = false := reSearch_ws_false (by decide) ht
  have hhate : reSearch explicit_hate_patterns t = false := reSearch_ws_false (by decide) ht
  have heng : detect_engagement_level t = 1/2 := by
    simp only [detect_engagement_level, hEh, hEm, hEl, hlove, hhate]
    with_unfolding_all decide
  have hCh : countHits confidence_indicators_high t = 0 := countHits_ws_zero (by decide) ht
  have hCm : countHits confidence_indicators_medium t = 0 := countHits_ws_zero (by decide) ht
  have hCl : countHits confidence_indicators_low t = 0 := countHits_ws_zero (by decide) ht
  have hcfp : reSearch explicit_confident_patterns t = false := reSearch_ws_false (by decide) ht
  have hcsp : reSearch explicit_confused_patterns t = false := reSearch_ws_false (by decide) ht
  have hconf : detect_confidence_level t = 1/2 := by
    simp only [detect_confidence_level, hCh, hCm, hCl, hcfp, hcsp]
    with_unfolding_all decide
  have hpos : countHits positive_indicators t = 0 := countHits_ws_zero (by decide) ht
  have hneg : countHits negative_indicators t = 0 := countHits_ws_zero (by decide) ht
  have hsat : calculate_satisfaction_level t none = 1/2 := by
    have hdef : calculate_satisfaction_level t none =
        (if ((countHits positive_indicators t : ℚ) + (countHits negative_indicators t : ℚ) > 0)
          then (countHits positive_indicators t : ℚ) /
            ((countHits positive_indicators t : ℚ) + (countHits negative_indicators t : ℚ))
          else 0.5) := rfl
    rw [hdef, hpos, hneg]
    with_unfolding_all decide
  have hct : countHits frustration_words_technical t = 0 := countHits_ws_zero (by decide) ht
  have hcc : countHits frustration_words_content t = 0 := countHits_ws_zero (by decide) ht
  have hcs : countHits frustration_words_support t = 0 := countHits_ws_zero (by decide) ht
  have hcp : countHits frustration_words_pace t = 0 := countHits_ws_zero (by decide) ht
  have htype : determine_frustration_type t = "mixed" := by
    simp only [determine_frustration_type, hct, hcc, hcs, hcp]
    with_unfolding_all decide
  have hui : reSearch urgency_phrases_immediate t = false := reSearch_ws_false (by decide) ht
  have huc : reSearch urgency_phrases_critical t = false := reSearch_ws_false (by decide) ht
  have huh : reSearch urgency_phrases_high t = false := reSearch_ws_false (by decide) ht
  have hum : reSearch urgency_phrases_medium t = false := reSearch_ws_false (by decide) ht
  have hul : reSearch urgency_phrases_low t = false := reSearch_ws_false (by decide) ht
  have hurg : detect_urgency t = "low" := by
    simp only [detect_urgency, hui, huc, huh, hum, hul]
    with_unfolding_all decide
  have hs1 : reSearch considering_dropping_patterns t = false := reSearch_ws_false (by decide) ht
  have hs2 : reSearch missed_deadlines_patterns t = false := reSearch_ws_false (by decide) ht
  have hs3 : reSearch help_requests_patterns t = false := reSearch_ws_false (by decide) ht
  have hs4 : reSearch progress_blocked_patterns t = false := reSearch_ws_false (by decide) ht
  have hs5 : reSearch timeline_pressure_patterns t = false := reSearch_ws_false (by decide) ht
  have hs6 : reSearch repeated_attempts_patterns t = false := reSearch_ws_false (by decide) ht
  have husig : detect_urgency_signals t = [] := by
    simp only [detect_urgency_signals, hs1, hs2, hs3, hs4, hs5, hs6]
    with_unfolding_all decide
  have hhidfil : hidden_dissatisfaction_patterns.filter (fun p => reSearch p.2 t) = [] := by
    have hall : hidden_dissatisfaction_patterns.all
        (fun p => p.2.all (fun q => q.data.any (fun c => !isWsChar c))) = true := by decide
    rw [List.filter_eq_nil_iff]
    intro p hp hcontra
    rw [reSearch_ws_false (List.all_eq_true.mp hall p hp) ht] at hcontra
    exact Bool.false_ne_true hcontra
  have hpb : reSearch praise_but_patterns t = false := reSearch_ws_false (by decide) ht
  have hseq1 : reSeq ["like", "enjoy"] ["however", "though", "but"] t = false :=
    reSeq_ws_false (by decide) ht
  have hfp : reSearch faint_praise_patterns t = false := reSearch_ws_false (by decide) ht
  have hdl : reSearch diplomatic_language_patterns t = false := reSearch_ws_false (by decide) ht
  have hhid : analyze_hidden_dissatisfaction t (calculate_satisfaction_level t none)
      = (false, 0, []) := by
    rw [hsat]
    simp only [analyze_hidden_dissatisfaction, hhidfil, hpb, hseq1, hfp, hdl]
    with_unfolding_all decide
  have hflag : (analyze_hidden_dissatisfaction t (calculate_satisfaction_level t none)).1
      = false := by rw [hhid]
  have hhsig : (analyze_hidden_dissatisfaction t (calculate_satisfaction_level t none)).2.2
      = [] := by rw [hhid]
  have hdw : dropout_risk_emotion_words.filter (fun w => inLower w t) = [] :=
    filter_inLower_ws_nil (by decide) ht
  have hdrop : detect_dropout_risk_emotions t = [] := by
    simp only [detect_dropout_risk_emotions, hdw]
    exact phrase_fold_ws (by decide) ht []
  have hpw : positive_recovery_indicator_words.filter (fun w => inLower w t) = [] :=
    filter_inLower_ws_nil (by decide) ht
  have hposr : detect_positive_recovery_indicators t = [] := by
    simp only [detect_positive_recovery_indicators, hpw]
    exact phrase_fold_ws (by decide) ht []
  have htrigfil : trigger_patterns.filter (fun p => p.2.any (fun alts => reSearch alts t))
      = [] := by
    have hall : trigger_patterns.all
        (fun p => p.2.all (fun alts => alts.all (fun a => a.data.any (fun c => !isWsChar c))))
        = true := by decide
    rw [List.filter_eq_nil_iff]
    intro p hp hcontra
    obtain ⟨alts, halts, hre⟩ := List.any_eq_true.mp hcontra
    rw [reSearch_ws_false (List.all_eq_true.mp (List.all_eq_true.mp hall p hp) alts halts) ht]
      at hre
    exact Bool.false_ne_true hre
  have htrig : identify_emotional_triggers t = [] := by
    simp only [identify_emotional_triggers, htrigfil, List.map_nil]
  have hew : emotion_words.filter (fun w => inLower w t) = [] :=
    filter_inLower_ws_nil (by decide) ht
  have hpe : positive_emotions.any (fun w => inLower w t) = false :=
    anyInLower_ws_false (by decide) ht
  have hne : negative_emotions.any (fun w => inLower w t) = false :=
    anyInLower_ws_false (by decide) ht
  have hmf : reSearch ["mixed feelings"] t = false := reSearch_ws_false (by decide) ht
  have hcf2 : reSearch ["conflicted"] t = false := reSearch_ws_false (by decide) ht
  have htorn : reSearch ["torn"] t = false := reSearch_ws_false (by decide) ht
  have hoh : reSeq ["on one hand"] ["on the other"] t = false := reSeq_ws_false (by decide) ht
  have hpm : reSeq ["part of me"] ["another part"] t = false := reSeq_ws_false (by decide) ht
  have hbh : reSearch ["both happy and"] t = false := reSearch_ws_false (by decide) ht
  have hbf : reSearch ["both frustrated and"] t = false := reSearch_ws_false (by decide) ht
  have hcomplex : determine_emotional_complexity t = "simple" := by
    simp only [determine_emotional_complexity, hew, hpe, hne, hmf, hcf2, htorn, hoh, hpm,
      hbh, hbf]
    with_unfolding_all decide
  have hint : determine_frustration_intensity (detect_frustration_level t) = "mild" := by
    rw [hfr]
    with_unfolding_all decide
  have hresp : determine_response_urgency (detect_urgency t) (detect_frustration_level t)
      = "routine" := by
    rw [hurg, hfr]
    with_unfolding_all decide
  exact ⟨hfr, heng, hconf, hsat, husig, hhsig, hdrop, hposr, htrig, htype, hint, rfl, hurg,
    hresp, rfl, hcomplex, hflag⟩

theorem C5_amended_witness :
    (∀ c ∈ (" " : String).data, isWsChar c = true) ∧
    (analyze_text " " none none).frustration_level = 0 ∧
    (analyze_text " " none none).satisfaction_level = 1/2 ∧
    (analyze_text " " none none).hidden_dissatisfaction_flag = false := by
  have ht : ∀ c ∈ (" " : String).data, isWsChar c = true := by decide
  have h := C5_amended " " ht
  exact ⟨ht, h.1, h.2.2.2.1, h.2.2.2.2.2.2.2.2.2.2.2.2.2.2.2.2⟩
